import Mathlib

/-!
# Verification of the tinyland ActivityPub federation core

A shallow embedding, in Lean 4, of the pure logic of the `tinyland-activitypub`
TypeScript package, together with theorems settling the specification claims
about it.  Effectful boundaries of the source (file-system stores, `fetch`,
`crypto` primitives, `crypto.randomUUID()`, `Date.now()`) are modelled as
explicit parameters: stores become association lists threaded through the
handlers, HTTP fetches and RSA verification become function parameters, and
fresh UUIDs / timestamps become arguments, so that each source function is a
total Lean function whose control flow mirrors the TypeScript line by line.
-/

namespace Tinyland

/-! ## A model of WHATWG `new URL(...)`

The source parses URIs with `new URL(u)` and reads `url.hostname` / `url.host`,
`url.pathname` and `url.search`.  The URIs handled by this package are absolute
`http://` or `https://` URIs without userinfo, port or fragment, so the model
splits `scheme://host/path?search`: `host` is everything up to the first `/`
after the scheme, the path is split at the first `?` into `pathname` and
`search` (the `?` included, as in WHATWG), and a URL with an empty path gets
pathname `/`.  Strings not starting with `http://` or `https://` fail to parse
(in the source, `new URL` throws and the surrounding `try` returns `null`).
For such URLs `hostname = host` (no port). -/

structure Url where
  scheme : String
  host : String
  pathname : String
  search : String
deriving Repr, DecidableEq

def notSlash (c : Char) : Bool := c ≠ '/'

def notQuery (c : Char) : Bool := c ≠ '?'

def parseHostPath (scheme : String) (rest : List Char) : Option Url :=
  let host := rest.takeWhile notSlash
  let path := rest.dropWhile notSlash
  if host.isEmpty then none
  else
    let pathname := path.takeWhile notQuery
    let search := path.dropWhile notQuery
    some { scheme := scheme
           host := String.mk host
           pathname := if pathname.isEmpty then "/" else String.mk pathname
           search := String.mk search }

def parseUrlChars : List Char → Option Url
  | 'h' :: 't' :: 't' :: 'p' :: 's' :: ':' :: '/' :: '/' :: rest =>
      parseHostPath "https" rest
  | 'h' :: 't' :: 't' :: 'p' :: ':' :: '/' :: '/' :: rest =>
      parseHostPath "http" rest
  | _ => none

def parseUrl (s : String) : Option Url := parseUrlChars s.toList

/-! ## JavaScript string truthiness helpers

`x || d` and `if (x)` in the source treat both `undefined` and the empty
string as falsy; these helpers make that explicit for `Option String`. -/

def jsTruthy : Option String → Bool
  | some s => s ≠ ""
  | none => false

def jsOr (x : Option String) (d : String) : String :=
  match x with
  | some s => if s = "" then d else s
  | none => d

/-! ## Content federation service (`ContentFederationService.ts`)

`getAddressingForVisibility` — the visibility → addressing table. -/

def PUBLIC_ADDRESSING : String := "https://www.w3.org/ns/activitystreams#Public"

structure ActivityPubAddressing where
  «to» : List String
  cc : List String
deriving Repr, DecidableEq

def getAddressingForVisibility (visibility actorUrl followersUrl : String) :
    ActivityPubAddressing :=
  if visibility = "public" then
    { «to» := [PUBLIC_ADDRESSING], cc := [followersUrl] }
  else if visibility = "unlisted" then
    { «to» := [followersUrl], cc := [PUBLIC_ADDRESSING] }
  else if visibility = "followers" then
    { «to» := [followersUrl], cc := [] }
  else if visibility = "private" then
    { «to» := [actorUrl], cc := [] }
  else if visibility = "direct" then
    { «to» := [], cc := [] }
  else
    { «to» := [PUBLIC_ADDRESSING], cc := [followersUrl] }

/-- **C6.** `getAddressingForVisibility` realises exactly the visibility table:
`public ↦ to=[Public], cc=[F]`; `unlisted ↦ to=[F], cc=[Public]`;
`followers ↦ to=[F], cc=[]`; `private ↦ to=[A], cc=[]`; `direct ↦ to=[], cc=[]`;
and any other visibility string falls back to the `public` addressing. -/
theorem getAddressingForVisibility_table (A F : String) :
    getAddressingForVisibility "public" A F =
      { «to» := [PUBLIC_ADDRESSING], cc := [F] } ∧
    getAddressingForVisibility "unlisted" A F =
      { «to» := [F], cc := [PUBLIC_ADDRESSING] } ∧
    getAddressingForVisibility "followers" A F = { «to» := [F], cc := [] } ∧
    getAddressingForVisibility "private" A F = { «to» := [A], cc := [] } ∧
    getAddressingForVisibility "direct" A F = { «to» := [], cc := [] } ∧
    ∀ v : String,
      v ∉ ["public", "unlisted", "followers", "private", "direct"] →
      getAddressingForVisibility v A F =
        { «to» := [PUBLIC_ADDRESSING], cc := [F] } := by
  refine ⟨rfl, rfl, rfl, rfl, rfl, ?_⟩
  intro v hv
  simp only [List.mem_cons, List.mem_singleton, not_or] at hv
  obtain ⟨h1, h2, h3, h4, h5⟩ := hv
  simp [getAddressingForVisibility, h1, h2, h3, h4, h5]

/-- Witness for `getAddressingForVisibility_table`: instantiated at concrete
actor and followers URIs, with the fallback clause exercised at the unknown
visibility string `"friends"`. -/
theorem getAddressingForVisibility_table_witness :
    getAddressingForVisibility "friends" "https://example.com/ap/users/alice"
      "https://example.com/ap/users/alice/followers" =
      { «to» := [PUBLIC_ADDRESSING]
        cc := ["https://example.com/ap/users/alice/followers"] } :=
  (getAddressingForVisibility_table "https://example.com/ap/users/alice"
    "https://example.com/ap/users/alice/followers").2.2.2.2.2
    "friends" (by decide)

/-! ## Outbound delivery engine (`ActivityDeliveryService.ts`)

The delivery queue lives on disk as one JSON file per task; here a task is a
record, and the per-task mutation performed by one drain pass is a pure
function.  `Date.now()` becomes the `now : Nat` argument (epoch milliseconds),
and the per-recipient outcome of `deliverActivityToRecipient` (an HTTP POST)
becomes a `List Bool` of success flags, one per recipient in order. -/

inductive DeliveryStatus
  | pending
  | delivering
  | delivered
  | failed
deriving Repr, DecidableEq

structure DeliveryTask where
  id : String
  recipients : List String
  retryCount : Nat
  nextRetryAt : Nat
  status : DeliveryStatus
  error : Option String
  createdAt : Nat
deriving Repr, DecidableEq

/-- `updateDeliveryTaskStatus(taskId, status, errorMsg?)`: sets `task.status`,
and only when `status === 'failed'` and an error message is given does it also
record the error, increment `retryCount` and set
`nextRetryAt = now + min(2^retryCount * 1000, 300000)` (the backoff uses the
already-incremented count). -/
def updateDeliveryTaskStatus (task : DeliveryTask) (status : DeliveryStatus)
    (errorMsg : Option String) (now : Nat) : DeliveryTask :=
  let task := { task with status := status }
  if status = .failed ∧ jsTruthy errorMsg then
    let retryCount := task.retryCount + 1
    let backoffMs := min (2 ^ retryCount * 1000) 300000
    { task with
        error := errorMsg
        retryCount := retryCount
        nextRetryAt := now + backoffMs }
  else
    task

/-- The guard in `processDeliveryQueue`'s loop:
`if (task.status !== 'pending' && task.nextRetryAt > now) continue;`.
A task is skipped exactly when both conjuncts hold. -/
def skipsTask (task : DeliveryTask) (now : Nat) : Bool :=
  task.status ≠ DeliveryStatus.pending ∧ task.nextRetryAt > now

/-- A drain pass attempts delivery of a task iff the skip guard is false. -/
def attemptsTask (task : DeliveryTask) (now : Nat) : Bool :=
  ¬ skipsTask task now

/-- The gate as the spec states it: process exactly the tasks with
`status == pending && nextRetryAt ≤ now`.  (Stated from the spec's words, for
comparison with `attemptsTask`, which is translated from the source.) -/
def specGate (task : DeliveryTask) (now : Nat) : Bool :=
  task.status = DeliveryStatus.pending ∧ task.nextRetryAt ≤ now

/-- `processDeliveryTask`: marks the task `delivering`, delivers to each
recipient (outcomes supplied as `results`), then applies the outcome policy.
Returns `none` when the task file is removed (all-success or partial success),
otherwise the task record left in the queue. -/
def processDeliveryTask (task : DeliveryTask) (results : List Bool)
    (maxDeliveryRetries : Nat) (now : Nat) : Option DeliveryTask :=
  let successCount := (results.filter (fun b => b)).length
  let failCount := (results.filter (fun b => !b)).length
  let task := updateDeliveryTaskStatus task .delivering none now
  if failCount = 0 then
    none
  else if successCount = 0 then
    if task.retryCount ≥ maxDeliveryRetries then
      some (updateDeliveryTaskStatus task .failed (some "Max retries exceeded") now)
    else
      some (updateDeliveryTaskStatus task .pending
        (some ("Failed: " ++ toString failCount ++ "/"
          ++ toString task.recipients.length ++ " recipients")) now)
  else
    none

/-- **C5** (code bug).  The drain gate in `processDeliveryQueue` does not
implement "attempt iff `status == pending && nextRetryAt ≤ now`": the source
guard `status !== 'pending' && nextRetryAt > now` skips only when *both*
conjuncts hold.  Concretely: a `pending` task whose `nextRetryAt` lies in the
future (backoff not yet elapsed) is attempted, and a terminally `failed` task
whose `nextRetryAt` has passed is attempted again; the spec's gate rejects
both. -/
theorem processDeliveryQueue_gate_disagrees :
    (attemptsTask
      { id := "t1", recipients := ["https://remote.example/@bob"],
        retryCount := 1, nextRetryAt := 1000000, status := .pending,
        error := none, createdAt := 0 } 0 = true ∧
     specGate
      { id := "t1", recipients := ["https://remote.example/@bob"],
        retryCount := 1, nextRetryAt := 1000000, status := .pending,
        error := none, createdAt := 0 } 0 = false) ∧
    (attemptsTask
      { id := "t2", recipients := ["https://remote.example/@bob"],
        retryCount := 4, nextRetryAt := 0, status := .failed,
        error := some "Max retries exceeded", createdAt := 0 } 5000 = true ∧
     specGate
      { id := "t2", recipients := ["https://remote.example/@bob"],
        retryCount := 4, nextRetryAt := 0, status := .failed,
        error := some "Max retries exceeded", createdAt := 0 } 5000 = false) := by
  decide

/-- **C2** (code bug).  An all-failure drain pass on a task below the retry cap
calls `updateDeliveryTaskStatus(id, 'pending', msg)`, but that function only
increments `retryCount` and sets the backoff `nextRetryAt` when the new status
is `'failed'`; with status `'pending'` the error message is discarded and the
task is rewritten with *only* the status changed — `retryCount` and
`nextRetryAt` keep their old values, not `retryCount+1` and
`now + min(2^retryCount * 1000, 5min)`. -/
theorem processDeliveryTask_allFail_keeps_retryCount (task : DeliveryTask)
    (results : List Bool) (maxDeliveryRetries now : Nat)
    (hne : results ≠ [])
    (hall : ∀ b ∈ results, b = false)
    (hlt : task.retryCount < maxDeliveryRetries) :
    processDeliveryTask task results maxDeliveryRetries now =
      some { task with status := .pending } := by
  have hsucc : results.filter (fun b => b) = [] := by
    rw [List.filter_eq_nil_iff]
    intro b hb
    simp [hall b hb]
  have hfail : results.filter (fun b => !b) = results := by
    rw [List.filter_eq_self]
    intro b hb
    simp [hall b hb]
  have hlen : results.length ≠ 0 := by
    simpa [List.length_eq_zero] using hne
  have hnot : ¬ maxDeliveryRetries ≤ task.retryCount := Nat.not_le.mpr hlt
  simp [processDeliveryTask, updateDeliveryTaskStatus, hsucc, hfail, hlen,
    hnot, jsTruthy]

/-- Witness for `processDeliveryTask_allFail_keeps_retryCount`: a fresh task
(`retryCount = 0`, `nextRetryAt = 0`) whose single recipient fails at
`now = 1000` with a cap of 3 retries is left `pending` with `retryCount`
still `0` and `nextRetryAt` still `0` (the claim expects `retryCount = 1` and
`nextRetryAt = 3000`). -/
theorem processDeliveryTask_allFail_keeps_retryCount_witness :
    processDeliveryTask
      { id := "t", recipients := ["https://remote.example/@bob"],
        retryCount := 0, nextRetryAt := 0, status := .pending,
        error := none, createdAt := 0 } [false] 3 1000 =
      some { id := "t", recipients := ["https://remote.example/@bob"],
             retryCount := 0, nextRetryAt := 0, status := .pending,
             error := none, createdAt := 0 } :=
  processDeliveryTask_allFail_keeps_retryCount _ [false] 3 1000
    (by decide) (by decide) (by decide)

/-! ## HTTP signature subsystem (`HttpSignatureService.ts`)

`crypto` is abstracted: SHA-256-then-base64 becomes `sha256b64 : String →
String`, base64 decoding to bytes becomes `b64decode : String → List Nat`
(`Buffer.from(_, 'base64')` is lenient and never throws), and RSA-SHA256
verification becomes `rsaVerify pem message sigB64 : Bool`.  `getPublicKey`
performs a cache lookup plus an HTTP fetch; its outcome is the parameter
`getKey : keyId → Option PublicKeyInfo`. -/

structure SignatureHeader where
  keyId : String
  algorithm : String
  headers : List String
  signature : String
deriving Repr, DecidableEq

structure PublicKeyInfo where
  id : String
  owner : String
  publicKeyPem : String
  cachedAt : Nat
  ttl : Nat
deriving Repr, DecidableEq

structure SigRequest where
  method : String
  url : String
  headers : List (String × String)
  body : Option String
deriving Repr, DecidableEq

/-- JavaScript `toLowerCase()`, for the ASCII strings this package lowercases
(HTTP methods, header names, algorithm tags).  Defined by character mapping so
the kernel can evaluate it (`String.toLower`'s `mapAux` does not reduce). -/
def charToLower (c : Char) : Char :=
  if 'A' ≤ c ∧ c ≤ 'Z' then Char.ofNat (c.toNat + 32) else c

def toLowerStr (s : String) : String := String.mk (s.toList.map charToLower)

/-- `request.headers.get(name)` — the Fetch `Headers` lookup is
case-insensitive. -/
def headerGet (headers : List (String × String)) (name : String) :
    Option String :=
  (headers.find? (fun kv => toLowerStr kv.fst = toLowerStr name)).map Prod.snd

/-- `generateDigest(body)`: `"SHA-256=" + base64(sha256(body))`. -/
def generateDigest (sha256b64 : String → String) (body : String) : String :=
  "SHA-256=" ++ sha256b64 body

/-- `verifyDigest(body, digestHeader)`: split the header on `,`, trim each
part, take the first part matching `/^SHA-256=(.+)$/i`, recompute the digest
and compare the base64-decoded byte strings (`crypto.timingSafeEqual` throws
on a length mismatch, which the source catches and turns into `false`; byte
equality subsumes that case).  No matching part ⇒ `false`. -/
def verifyDigest (sha256b64 : String → String) (b64decode : String → List Nat)
    (body digestHeader : String) : Bool :=
  let digestParts := (digestHeader.splitOn ",").map String.trim
  match digestParts.find? (fun part =>
      toLowerStr (part.take 8) = "sha-256=" ∧ part.length > 8) with
  | some part =>
      let providedHash := part.drop 8
      let computedHash := sha256b64 body
      decide (b64decode providedHash = b64decode computedHash)
  | none => false

/-! ### Parsing the `Signature` header

The source matches the unanchored regular expression
`keyId="([^"]+)",\s*algorithm="([^"]+)",\s*headers="([^"]+)",\s*signature="([^"]+)"`.
The model scans left to right for the first position where the pattern
matches; each `"([^"]+)"` group is a non-empty maximal run of non-quote
characters, exactly as the greedy regex class behaves. -/

def expectLit : List Char → List Char → Option (List Char)
  | [], cs => some cs
  | _ :: _, [] => none
  | l :: ls, c :: cs => if c = l then expectLit ls cs else none

def parseQuoted (cs : List Char) : Option (List Char × List Char) :=
  match cs with
  | '"' :: rest =>
    let content := rest.takeWhile (· ≠ '"')
    match rest.dropWhile (· ≠ '"') with
    | '"' :: tail => if content.isEmpty then none else some (content, tail)
    | _ => none
  | _ => none

/-! JavaScript `str.split(/\s+/)`: split on maximal whitespace runs, with a
leading (resp. trailing) run contributing one leading (resp. trailing) empty
element, and `"" ↦ [""]`. -/

mutual

def splitWsWord : List Char → List Char → List String
  | acc, [] => [String.mk acc.reverse]
  | acc, c :: cs =>
    if c.isWhitespace then String.mk acc.reverse :: splitWsGap cs
    else splitWsWord (c :: acc) cs

def splitWsGap : List Char → List String
  | [] => [""]
  | c :: cs => if c.isWhitespace then splitWsGap cs else splitWsWord [c] cs

end

def splitWsJs (s : String) : List String := splitWsWord [] s.toList

def parseSigAttrs (cs : List Char) : Option SignatureHeader := do
  let cs ← expectLit "keyId=".toList cs
  let (keyId, cs) ← parseQuoted cs
  let cs ← expectLit ",".toList cs
  let cs := cs.dropWhile Char.isWhitespace
  let cs ← expectLit "algorithm=".toList cs
  let (alg, cs) ← parseQuoted cs
  let cs ← expectLit ",".toList cs
  let cs := cs.dropWhile Char.isWhitespace
  let cs ← expectLit "headers=".toList cs
  let (hdrs, cs) ← parseQuoted cs
  let cs ← expectLit ",".toList cs
  let cs := cs.dropWhile Char.isWhitespace
  let cs ← expectLit "signature=".toList cs
  let (sig, _) ← parseQuoted cs
  pure { keyId := String.mk keyId
         algorithm := toLowerStr (String.mk alg)
         headers := splitWsJs (String.mk hdrs)
         signature := String.mk sig }

def searchSigAttrs : List Char → Option SignatureHeader
  | [] => none
  | c :: cs =>
    match parseSigAttrs (c :: cs) with
    | some s => some s
    | none => searchSigAttrs cs

/-- `parseSignatureHeader`: `null` for an empty header, else the unanchored
regex match; the algorithm is lowercased and the header list split on
whitespace. -/
def parseSignatureHeader (signatureHeader : String) : Option SignatureHeader :=
  if signatureHeader = "" then none
  else searchSigAttrs signatureHeader.toList

/-- `buildSignatureString(request, headers)` (the verification side): one line
per listed header; `(request-target)` becomes
`"(request-target): {method-lowercase} {pathname}{search}"`, any other header
is looked up in the request and skipped when absent.  (For `(request-target)`
the source calls `new URL(request.url)`, which throws on an unparsable URL;
the model is only applied to parseable URLs, where the two agree.) -/
def buildSignatureString (request : SigRequest) (headers : List String) :
    String :=
  let lines := headers.filterMap (fun header =>
    if header = "(request-target)" then
      match parseUrl request.url with
      | some url => some ("(request-target): " ++ toLowerStr request.method ++ " "
          ++ url.pathname ++ url.search)
      | none => none
    else
      (headerGet request.headers header).map (fun v => header ++ ": " ++ v))
  String.intercalate "\n" lines

/-- `verifyHttpSignature(request, signatureHeader)`: parse the header, reject
unsupported algorithms, resolve the public key, rebuild the signing string
from the inbound request and RSA-verify it.  Note that the request body is
never consulted. -/
def verifyHttpSignature (getKey : String → Option PublicKeyInfo)
    (rsaVerify : String → String → String → Bool)
    (request : SigRequest) (signatureHeader : String) : Bool :=
  match parseSignatureHeader signatureHeader with
  | none => false
  | some signature =>
    if signature.algorithm ≠ "rsa-sha256" ∧ signature.algorithm ≠ "hs2019" then
      false
    else
      match getKey signature.keyId with
      | none => false
      | some keyInfo =>
        let signatureString := buildSignatureString request signature.headers
        rsaVerify keyInfo.publicKeyPem signatureString signature.signature

/-- A POST carrying a body but no `Digest` header, whose `Signature` header
covers only `(request-target) host date`. -/
def digestlessRequest : SigRequest :=
  { method := "POST"
    url := "https://example.com/@alice/inbox"
    headers := [("host", "example.com"), ("date", "Tue, 20 Apr 2021 02:07:55 GMT")]
    body := some "hello world" }

def digestlessSignatureHeader : String :=
  "keyId=\"https://remote.example/@bob#main-key\",algorithm=\"rsa-sha256\"," ++
  "headers=\"(request-target) host date\",signature=\"c2lnbmF0dXJl\""

/-- **C1** (code bug).  `verifyHttpSignature` never invokes `verifyDigest` and
never reads the request body: its result is invariant under changing the body,
and a request that carries a body but no `Digest` header at all still verifies
successfully whenever the RSA check over the listed headers passes (modelled
by an oracle `rsaVerify` that accepts) — the claim requires verification to
fail in that situation. -/
theorem verifyHttpSignature_skips_digest_check :
    (∀ (getKey : String → Option PublicKeyInfo)
       (rsaVerify : String → String → String → Bool)
       (m u : String) (hs : List (String × String)) (b b' : Option String)
       (sh : String),
      verifyHttpSignature getKey rsaVerify ⟨m, u, hs, b⟩ sh =
        verifyHttpSignature getKey rsaVerify ⟨m, u, hs, b'⟩ sh) ∧
    headerGet digestlessRequest.headers "digest" = none ∧
    digestlessRequest.body.isSome = true ∧
    verifyHttpSignature
      (fun _ => some { id := "https://remote.example/@bob#main-key"
                       owner := "https://remote.example/@bob"
                       publicKeyPem := "PEM", cachedAt := 0, ttl := 3600000 })
      (fun _ _ _ => true)
      digestlessRequest digestlessSignatureHeader = true := by
  refine ⟨fun getKey rsaVerify m u hs b b' sh => rfl, by decide, by decide, by decide⟩

/-! ## A JSON value model

The exported actor and group documents are serialized with `JSON.stringify`;
to reason about which *fields* appear on the wire, each document's object
literal is mirrored as a `Json` value (keys in literal order;
`undefined`-valued keys are dropped, as `JSON.stringify` does). -/

inductive Json where
  | str (s : String)
  | bool (b : Bool)
  | num (n : Int)
  | arr (xs : List Json)
  | obj (fields : List (String × Json))
  | null
deriving Repr

mutual

/-- All object keys occurring anywhere in a JSON value. -/
def jsonKeys : Json → List String
  | .str _ => []
  | .bool _ => []
  | .num _ => []
  | .null => []
  | .arr xs => jsonKeysList xs
  | .obj fs => jsonKeysFields fs

def jsonKeysList : List Json → List String
  | [] => []
  | x :: xs => jsonKeys x ++ jsonKeysList xs

def jsonKeysFields : List (String × Json) → List String
  | [] => []
  | (k, v) :: fs => k :: (jsonKeys v ++ jsonKeysFields fs)

end

theorem jsonKeys_obj (fs : List (String × Json)) :
    jsonKeys (.obj fs) = jsonKeysFields fs := by
  simp [jsonKeys]

theorem jsonKeys_arr (xs : List Json) :
    jsonKeys (.arr xs) = jsonKeysList xs := by
  simp [jsonKeys]

theorem jsonKeys_str (s : String) : jsonKeys (.str s) = [] := by
  simp [jsonKeys]

theorem jsonKeys_bool (b : Bool) : jsonKeys (.bool b) = [] := by
  simp [jsonKeys]

theorem jsonKeysFields_nil : jsonKeysFields [] = [] := by
  simp [jsonKeysFields]

theorem jsonKeysFields_cons (k : String) (v : Json)
    (fs : List (String × Json)) :
    jsonKeysFields ((k, v) :: fs) = k :: (jsonKeys v ++ jsonKeysFields fs) := by
  simp [jsonKeysFields]

theorem jsonKeysFields_append (a b : List (String × Json)) :
    jsonKeysFields (a ++ b) = jsonKeysFields a ++ jsonKeysFields b := by
  induction a with
  | nil => simp [jsonKeysFields]
  | cons kv rest ih => cases kv; simp [jsonKeysFields, ih]

/-! ## Actor store (`ActorService.ts`)

`crypto.generateKeyPairSync` and `crypto.randomUUID()` are abstracted as the
`publicKeyPem`/`privateKeyPem`/`uuid` string arguments; the per-handle actor
file store becomes `store : String → Option StoredActor`.  `baseUrl` stands
for `getSiteBaseUrl()` (the configured base URL, trailing slash stripped). -/

structure ActorUser where
  handle : String
  displayName : Option String
  createdAt : String
  updatedAt : String
deriving Repr, DecidableEq

structure ActorProfile where
  bio : Option String
  avatar : Option String
  coverImage : Option String
  website : Option String
  location : Option String
  pronouns : Option String
  email : Option String
  twitter : Option String
  github : Option String
  linkedin : Option String
  mastodon : Option String
  instagram : Option String
  visibility : Option String
deriving Repr, DecidableEq

structure StoredActor where
  id : String
  handle : String
  displayName : Option String
  bio : Option String
  avatarUrl : Option String
  bannerUrl : Option String
  website : Option String
  location : Option String
  pronouns : Option String
  email : Option String
  mastodon : Option String
  twitter : Option String
  github : Option String
  linkedin : Option String
  instagram : Option String
  discoverable : Bool
  indexable : Bool
  manuallyApprovesFollowers : Bool
  publicKeyId : String
  publicKeyPem : String
  privateKeyPem : String
  actorType : String
  visibility : String
  createdAt : String
  updatedAt : String
deriving Repr, DecidableEq

structure ActorPublicKey where
  id : String
  owner : String
  publicKeyPem : String
deriving Repr, DecidableEq

structure ActorImage where
  type : String
  url : String
  mediaType : Option String
deriving Repr, DecidableEq

structure ActorPropertyValue where
  type : String
  name : String
  value : String
deriving Repr, DecidableEq

/-- The public `Actor` document.  `jsonldContext` holds the `'@context'`
value (the two emitting functions use different context arrays);
`sharedInbox` is `endpoints.sharedInbox`. -/
structure Actor where
  jsonldContext : Json
  id : String
  type : String
  inbox : String
  outbox : String
  following : String
  followers : String
  liked : String
  featured : String
  preferredUsername : String
  name : String
  summary : String
  url : String
  icon : Option ActorImage
  image : Option ActorImage
  discoverable : Bool
  indexable : Bool
  manuallyApprovesFollowers : Bool
  attachment : Option (List ActorPropertyValue)
  publicKey : ActorPublicKey
  published : String
  updated : String
  sharedInbox : String

def ActorImage.toJson (img : ActorImage) : Json :=
  .obj ([("type", .str img.type), ("url", .str img.url)] ++
    (match img.mediaType with
     | some m => [("mediaType", Json.str m)]
     | none => []))

def ActorPropertyValue.toJson (pv : ActorPropertyValue) : Json :=
  .obj [("type", .str pv.type), ("name", .str pv.name), ("value", .str pv.value)]

/-- `JSON.stringify` of the actor object literal: keys in source order,
`undefined`-valued keys (`icon`, `image`, `attachment`) dropped. -/
def Actor.toJson (a : Actor) : Json :=
  .obj (
    [("@context", a.jsonldContext),
     ("id", .str a.id), ("type", .str a.type),
     ("inbox", .str a.inbox), ("outbox", .str a.outbox),
     ("following", .str a.following), ("followers", .str a.followers),
     ("liked", .str a.liked), ("featured", .str a.featured),
     ("preferredUsername", .str a.preferredUsername),
     ("name", .str a.name), ("summary", .str a.summary), ("url", .str a.url)]
    ++ (match a.icon with
        | some i => [("icon", i.toJson)]
        | none => [])
    ++ (match a.image with
        | some i => [("image", i.toJson)]
        | none => [])
    ++ [("discoverable", .bool a.discoverable),
        ("indexable", .bool a.indexable),
        ("manuallyApprovesFollowers", .bool a.manuallyApprovesFollowers)]
    ++ (match a.attachment with
        | some pvs => [("attachment", .arr (pvs.map ActorPropertyValue.toJson))]
        | none => [])
    ++ [("publicKey", .obj [("id", .str a.publicKey.id),
          ("owner", .str a.publicKey.owner),
          ("publicKeyPem", .str a.publicKey.publicKeyPem)]),
        ("published", .str a.published), ("updated", .str a.updated),
        ("endpoints", .obj [("sharedInbox", .str a.sharedInbox)])])

/-- The `'@context'` array of `createActorFromUser`. -/
def personContext : Json :=
  .arr [.str "https://www.w3.org/ns/activitystreams",
        .str "https://w3id.org/security/v1",
        .obj [("toot", .str "http://joinmastodon.org/ns#"),
              ("discoverable", .str "toot:discoverable"),
              ("indexable", .str "toot:indexable"),
              ("featured", .str "toot:featured"),
              ("manuallyApprovesFollowers", .str "as:manuallyApprovesFollowers"),
              ("PropertyValue", .str "schema:PropertyValue"),
              ("schema", .str "http://schema.org/#")]]

/-- The `'@context'` array of `getActorByHandle`. -/
def storedActorContext : Json :=
  .arr [.str "https://www.w3.org/ns/activitystreams",
        .str "https://w3id.org/security/v1",
        .obj [("toot", .str "http://joinmastodon.org/ns#"),
              ("discoverable", .str "toot:discoverable"),
              ("indexable", .str "toot:indexable"),
              ("featured", .str "toot:featured")]]

structure KeyPairInfo where
  publicKeyId : String
  publicKeyPem : String
  privateKeyPem : String
deriving Repr, DecidableEq

/-- `generateKeyPair()`: generates an RSA-2048 key pair (the PEMs are the
`publicKeyPem`/`privateKeyPem` arguments here) and derives
`publicKeyId = getSiteBaseUrl() + "/@" + crypto.randomUUID() + "#main-key"` —
note: from a fresh random UUID, not from any actor handle. -/
def generateKeyPair (baseUrl uuid publicKeyPem privateKeyPem : String) :
    KeyPairInfo :=
  { publicKeyId := baseUrl ++ "/@" ++ uuid ++ "#main-key"
    publicKeyPem := publicKeyPem
    privateKeyPem := privateKeyPem }

/-- JS `s.replace('@', '')` — removes only the first occurrence. -/
def stripFirstAt (s : String) : String :=
  let cs := s.toList
  match cs.dropWhile (· ≠ '@') with
  | _ :: rest => String.mk (cs.takeWhile (· ≠ '@') ++ rest)
  | [] => s

/-- `createActorFromUser(user, profile?)`: reuses the stored key pair when the
handle already has a stored record, otherwise generates one; builds the
PropertyValue attachments, the public `Actor` document, and the `StoredActor`
record written back to the store.  Returns `(document, stored record)`. -/
def createActorFromUser (baseUrl : String)
    (store : String → Option StoredActor) (user : ActorUser)
    (profile : Option ActorProfile) (uuid publicKeyPem privateKeyPem : String) :
    Actor × StoredActor :=
  let actorId := baseUrl ++ "/@" ++ user.handle
  let keyPair : KeyPairInfo :=
    match store user.handle with
    | some storedActor =>
        { publicKeyId := storedActor.publicKeyId
          publicKeyPem := storedActor.publicKeyPem
          privateKeyPem := storedActor.privateKeyPem }
    | none => generateKeyPair baseUrl uuid publicKeyPem privateKeyPem
  let website := profile.bind (·.website)
  let twitter := profile.bind (·.twitter)
  let github := profile.bind (·.github)
  let linkedin := profile.bind (·.linkedin)
  let mastodon := profile.bind (·.mastodon)
  let attachments : List ActorPropertyValue :=
    (if jsTruthy website then
      [{ type := "PropertyValue", name := "Website",
         value := "<a href=\"" ++ website.getD ""
           ++ "\" rel=\"me nofollow noreferrer\" target=\"_blank\">"
           ++ website.getD "" ++ "</a>" }]
     else []) ++
    (if jsTruthy twitter then
      [{ type := "PropertyValue", name := "Twitter",
         value := "<a href=\"https://twitter.com/"
           ++ stripFirstAt (twitter.getD "")
           ++ "\" rel=\"me nofollow noreferrer\" target=\"_blank\">"
           ++ twitter.getD "" ++ "</a>" }]
     else []) ++
    (if jsTruthy github then
      [{ type := "PropertyValue", name := "GitHub",
         value := "<a href=\"https://github.com/"
           ++ stripFirstAt (github.getD "")
           ++ "\" rel=\"me nofollow noreferrer\" target=\"_blank\">"
           ++ github.getD "" ++ "</a>" }]
     else []) ++
    (if jsTruthy linkedin then
      [{ type := "PropertyValue", name := "LinkedIn",
         value := "<a href=\"https://linkedin.com/in/" ++ linkedin.getD ""
           ++ "\" rel=\"me nofollow noreferrer\" target=\"_blank\">"
           ++ linkedin.getD "" ++ "</a>" }]
     else []) ++
    (if jsTruthy mastodon then
      [{ type := "PropertyValue", name := "Mastodon",
         value := "<a href=\"" ++ mastodon.getD ""
           ++ "\" rel=\"me nofollow noreferrer\" target=\"_blank\">Fediverse</a>" }]
     else [])
  let avatar := profile.bind (·.avatar)
  let coverImage := profile.bind (·.coverImage)
  let visibility := profile.bind (·.visibility)
  let icon : Option ActorImage :=
    if jsTruthy avatar then
      some { type := "Image", url := baseUrl ++ avatar.getD ""
             mediaType := some "image/jpeg" }
    else none
  let image : Option ActorImage :=
    if jsTruthy coverImage then
      some { type := "Image", url := baseUrl ++ coverImage.getD ""
             mediaType := some "image/jpeg" }
    else none
  let publicKey : ActorPublicKey :=
    { id := keyPair.publicKeyId, owner := actorId
      publicKeyPem := keyPair.publicKeyPem }
  let actor : Actor :=
    { jsonldContext := personContext
      id := actorId
      type := "Person"
      inbox := actorId ++ "/inbox"
      outbox := actorId ++ "/outbox"
      following := actorId ++ "/following"
      followers := actorId ++ "/followers"
      liked := actorId ++ "/liked"
      featured := actorId ++ "/featured"
      preferredUsername := user.handle
      name := jsOr user.displayName user.handle
      summary := jsOr (profile.bind (·.bio)) ""
      url := baseUrl ++ "/@" ++ user.handle
      icon := icon
      image := image
      discoverable := visibility ≠ some "private"
      indexable := visibility ≠ some "private"
      manuallyApprovesFollowers := false
      attachment := if attachments.length > 0 then some attachments else none
      publicKey := publicKey
      published := user.createdAt
      updated := user.updatedAt
      sharedInbox := baseUrl ++ "/inbox" }
  let storedRecord : StoredActor :=
    { id := actorId
      handle := user.handle
      displayName := some (jsOr user.displayName user.handle)
      bio := some (jsOr (profile.bind (·.bio)) "")
      avatarUrl := avatar
      bannerUrl := coverImage
      website := website
      location := profile.bind (·.location)
      pronouns := profile.bind (·.pronouns)
      email := profile.bind (·.email)
      mastodon := mastodon
      twitter := twitter
      github := github
      linkedin := linkedin
      instagram := profile.bind (·.instagram)
      discoverable := visibility ≠ some "private"
      indexable := visibility ≠ some "private"
      manuallyApprovesFollowers := false
      publicKeyId := keyPair.publicKeyId
      publicKeyPem := keyPair.publicKeyPem
      privateKeyPem := keyPair.privateKeyPem
      actorType := "Person"
      visibility := jsOr visibility "public"
      createdAt := user.createdAt
      updatedAt := user.updatedAt }
  (actor, storedRecord)

/-- The document built by `getActorByHandle` from a stored record. -/
def actorFromStored (baseUrl : String) (storedActor : StoredActor) : Actor :=
  { jsonldContext := storedActorContext
    id := storedActor.id
    type := storedActor.actorType
    inbox := storedActor.id ++ "/inbox"
    outbox := storedActor.id ++ "/outbox"
    following := storedActor.id ++ "/following"
    followers := storedActor.id ++ "/followers"
    liked := storedActor.id ++ "/liked"
    featured := storedActor.id ++ "/featured"
    preferredUsername := storedActor.handle
    name := jsOr storedActor.displayName storedActor.handle
    summary := jsOr storedActor.bio ""
    url := storedActor.id
    icon :=
      if jsTruthy storedActor.avatarUrl then
        some { type := "Image", url := baseUrl ++ storedActor.avatarUrl.getD ""
               mediaType := none }
      else none
    image :=
      if jsTruthy storedActor.bannerUrl then
        some { type := "Image", url := baseUrl ++ storedActor.bannerUrl.getD ""
               mediaType := none }
      else none
    discoverable := storedActor.discoverable
    indexable := storedActor.indexable
    manuallyApprovesFollowers := storedActor.manuallyApprovesFollowers
    attachment := none
    publicKey := { id := storedActor.publicKeyId, owner := storedActor.id
                   publicKeyPem := storedActor.publicKeyPem }
    published := storedActor.createdAt
    updated := storedActor.updatedAt
    sharedInbox := baseUrl ++ "/inbox" }

/-- `getActorByHandle(handle)`: `null` when no stored record exists, else the
public document. -/
def getActorByHandle (baseUrl : String)
    (store : String → Option StoredActor) (handle : String) : Option Actor :=
  (store handle).map (actorFromStored baseUrl)

/-! ## Group actors (`GroupActorService.ts`) -/

structure StoredGroup where
  id : String
  handle : String
  displayName : String
  summary : String
  iconUrl : Option String
  imageUrl : Option String
  visibility : String
  postingRestrictedToMods : Bool
  nsfw : Bool
  publicKeyId : String
  publicKeyPem : String
  privateKeyPem : String
  createdAt : String
  updatedAt : String
  moderators : List String
  categories : List String
  language : Option String
deriving Repr, DecidableEq

/-- The `Group` document emitted by `storedGroupToActivityPub`. -/
structure GroupDoc where
  jsonldContext : Json
  id : String
  type : String
  preferredUsername : String
  name : String
  summary : String
  inbox : String
  outbox : String
  followers : String
  attributedTo : List String
  icon : Option ActorImage
  image : Option ActorImage
  discoverable : Bool
  indexable : Bool
  postingRestrictedToMods : Bool
  moderators : List String
  sensitive : Bool
  publicKey : ActorPublicKey
  published : String
  updated : String
  sharedInbox : String

def groupContext : Json :=
  .arr [.str "https://www.w3.org/ns/activitystreams",
        .str "https://w3id.org/security/v1",
        .obj [("lemmy", .str "https://join-lemmy.org/ns#"),
              ("postingRestrictedToMods", .str "lemmy:postingRestrictedToMods"),
              ("moderators", .str "lemmy:moderators"),
              ("sensitive", .str "as:sensitive"),
              ("toot", .str "http://joinmastodon.org/ns#"),
              ("discoverable", .str "toot:discoverable"),
              ("indexable", .str "toot:indexable")]]

/-- `u.startsWith('http') ? u : baseUrl + u` for icon/image URLs. -/
def absoluteUrl (baseUrl u : String) : String :=
  if u.startsWith "http" then u else baseUrl ++ u

/-- `storedGroupToActivityPub(stored)`. -/
def storedGroupToActivityPub (baseUrl : String) (stored : StoredGroup) :
    GroupDoc :=
  let groupUri := stored.id
  { jsonldContext := groupContext
    id := groupUri
    type := "Group"
    preferredUsername := stored.handle
    name := stored.displayName
    summary := stored.summary
    inbox := groupUri ++ "/inbox"
    outbox := groupUri ++ "/outbox"
    followers := groupUri ++ "/followers"
    attributedTo := stored.moderators
    icon :=
      if jsTruthy stored.iconUrl then
        some { type := "Image"
               url := absoluteUrl baseUrl (stored.iconUrl.getD "")
               mediaType := none }
      else none
    image :=
      if jsTruthy stored.imageUrl then
        some { type := "Image"
               url := absoluteUrl baseUrl (stored.imageUrl.getD "")
               mediaType := none }
      else none
    discoverable := stored.visibility = "public"
    indexable := stored.visibility = "public"
    postingRestrictedToMods := stored.postingRestrictedToMods
    moderators := stored.moderators
    sensitive := stored.nsfw
    publicKey := { id := stored.publicKeyId, owner := groupUri
                   publicKeyPem := stored.publicKeyPem }
    published := stored.createdAt
    updated := stored.updatedAt
    sharedInbox := baseUrl ++ "/inbox" }

/-- `JSON.stringify` of the group object literal (keys in source order,
`undefined` keys dropped). -/
def GroupDoc.toJson (g : GroupDoc) : Json :=
  .obj (
    [("@context", g.jsonldContext),
     ("id", .str g.id), ("type", .str g.type),
     ("preferredUsername", .str g.preferredUsername),
     ("name", .str g.name), ("summary", .str g.summary),
     ("inbox", .str g.inbox), ("outbox", .str g.outbox),
     ("followers", .str g.followers),
     ("attributedTo", .arr (g.attributedTo.map Json.str))]
    ++ (match g.icon with
        | some i => [("icon", i.toJson)]
        | none => [])
    ++ (match g.image with
        | some i => [("image", i.toJson)]
        | none => [])
    ++ [("discoverable", .bool g.discoverable),
        ("indexable", .bool g.indexable),
        ("postingRestrictedToMods", .bool g.postingRestrictedToMods),
        ("moderators", .arr (g.moderators.map Json.str)),
        ("sensitive", .bool g.sensitive),
        ("publicKey", .obj [("id", .str g.publicKey.id),
          ("owner", .str g.publicKey.owner),
          ("publicKeyPem", .str g.publicKey.publicKeyPem)]),
        ("published", .str g.published), ("updated", .str g.updated),
        ("endpoints", .obj [("sharedInbox", .str g.sharedInbox)])])

/-! ### C3: the key id of a freshly created actor -/

/-- The document `createActorFromUser` returns for handle `alice` on an empty
store, with the key pair drawn by `generateKeyPair` (UUID made explicit). -/
def freshAliceActor : Actor :=
  (createActorFromUser "https://example.com" (fun _ => none)
    { handle := "alice", displayName := none,
      createdAt := "2024-01-01T00:00:00Z", updatedAt := "2024-01-01T00:00:00Z" }
    none "123e4567-e89b-12d3-a456-426614174000" "PUBPEM" "PRIVPEM").1

/-- **C3** (code bug).  For a freshly created actor the published key id is
*not* `actor.id + "#main-key"`: `generateKeyPair` derives `publicKeyId` from a
fresh `crypto.randomUUID()` (its local variable is even named `actorId`)
instead of the actor's URI, so `alice`'s document carries
`publicKey.id = {base}/@{uuid}#main-key` while `publicKey.owner` is correctly
the actor URI.  (`getActorByHandle` then republishes the stored, UUID-based
key id.)  The group service derives its key id correctly from the group URI,
and the spec states `publicKeyId = {actorId}#main-key` — the UUID is a slip. -/
theorem createActorFromUser_publicKeyId_mismatch :
    freshAliceActor.publicKey.owner = freshAliceActor.id ∧
    freshAliceActor.id = "https://example.com/@alice" ∧
    freshAliceActor.publicKey.id =
      "https://example.com/@123e4567-e89b-12d3-a456-426614174000#main-key" ∧
    freshAliceActor.publicKey.id ≠ freshAliceActor.id ++ "#main-key" := by
  refine ⟨rfl, rfl, rfl, ?_⟩
  decide

/-! ### C7: the private key never appears in an exported document -/

theorem propertyValue_keys_clean (pvs : List ActorPropertyValue) :
    "privateKeyPem" ∉ jsonKeysList (pvs.map ActorPropertyValue.toJson) := by
  induction pvs with
  | nil => simp [jsonKeysList]
  | cons pv rest ih =>
      simp [jsonKeysList, ActorPropertyValue.toJson, jsonKeys, jsonKeysFields, ih]

theorem actorImage_keys_clean (i : ActorImage) :
    "privateKeyPem" ∉ jsonKeys (ActorImage.toJson i) := by
  cases h : i.mediaType <;>
    simp [ActorImage.toJson, h, jsonKeys, jsonKeysFields]

theorem strListArr_keys_clean (xs : List String) :
    jsonKeysList (xs.map Json.str) = [] := by
  induction xs with
  | nil => simp [jsonKeysList]
  | cons x rest ih => simp [jsonKeysList, jsonKeys, ih]

theorem storedActorContext_keys_clean :
    "privateKeyPem" ∉ jsonKeys storedActorContext := by
  simp [storedActorContext, jsonKeys, jsonKeysList, jsonKeysFields]

theorem personContext_keys_clean :
    "privateKeyPem" ∉ jsonKeys personContext := by
  simp [personContext, jsonKeys, jsonKeysList, jsonKeysFields]

theorem groupContext_keys_clean :
    "privateKeyPem" ∉ jsonKeys groupContext := by
  simp [groupContext, jsonKeys, jsonKeysList, jsonKeysFields]

theorem actorToJson_keys_clean (a : Actor)
    (hctx : "privateKeyPem" ∉ jsonKeys a.jsonldContext) :
    "privateKeyPem" ∉ jsonKeys (Actor.toJson a) := by
  cases hi : a.icon <;> cases him : a.image <;> cases hat : a.attachment <;>
    simp only [Actor.toJson, hi, him, hat, jsonKeys_obj, jsonKeysFields_append,
      jsonKeysFields_cons, jsonKeysFields_nil, jsonKeys_str, jsonKeys_bool,
      jsonKeys_arr, List.mem_append, List.mem_cons, List.append_nil,
      List.nil_append, List.not_mem_nil] <;>
    simp [hctx, actorImage_keys_clean, propertyValue_keys_clean]

/-- **C7.**  No exported document carries a `privateKeyPem` field, and none of
the emitting functions reads the private key into the document: for
`getActorByHandle` (via `actorFromStored`) and `storedGroupToActivityPub` the
serialized key set excludes `"privateKeyPem"` and the document is invariant
under replacing the stored private key; for `createActorFromUser` the
document's keys exclude `"privateKeyPem"` and the document is invariant under
the generated private key (it lives only in the `StoredActor` record written
back to the store). -/
theorem privateKeyPem_never_serialized :
    (∀ (baseUrl : String) (s : StoredActor),
      "privateKeyPem" ∉ jsonKeys (Actor.toJson (actorFromStored baseUrl s)) ∧
      ∀ p, actorFromStored baseUrl { s with privateKeyPem := p } =
        actorFromStored baseUrl s) ∧
    (∀ (baseUrl : String) (g : StoredGroup),
      "privateKeyPem" ∉
        jsonKeys (GroupDoc.toJson (storedGroupToActivityPub baseUrl g)) ∧
      ∀ p, storedGroupToActivityPub baseUrl { g with privateKeyPem := p } =
        storedGroupToActivityPub baseUrl g) ∧
    (∀ (baseUrl : String) (store : String → Option StoredActor)
       (user : ActorUser) (profile : Option ActorProfile)
       (uuid pub priv priv' : String),
      "privateKeyPem" ∉ jsonKeys
        (Actor.toJson
          (createActorFromUser baseUrl store user profile uuid pub priv).1) ∧
      (createActorFromUser baseUrl store user profile uuid pub priv).1 =
        (createActorFromUser baseUrl store user profile uuid pub priv').1) := by
  refine ⟨fun baseUrl s => ⟨?_, fun p => rfl⟩,
          fun baseUrl g => ⟨?_, fun p => rfl⟩,
          fun baseUrl store user profile uuid pub priv priv' => ⟨?_, ?_⟩⟩
  · exact actorToJson_keys_clean _ storedActorContext_keys_clean
  · cases hI : jsTruthy g.iconUrl <;> cases hM : jsTruthy g.imageUrl <;>
      simp only [storedGroupToActivityPub, GroupDoc.toJson, hI, hM,
        Bool.false_eq_true, if_true, if_false, jsonKeys_obj,
        jsonKeysFields_append, jsonKeysFields_cons, jsonKeysFields_nil,
        jsonKeys_str, jsonKeys_bool, jsonKeys_arr, List.mem_append,
        List.mem_cons, List.append_nil, List.nil_append, List.not_mem_nil] <;>
      simp [groupContext_keys_clean, actorImage_keys_clean,
        strListArr_keys_clean]
  · have hctx :
        (createActorFromUser baseUrl store user profile uuid pub
          priv).1.jsonldContext = personContext := by
      cases h : store user.handle <;> simp [createActorFromUser, h]
    refine actorToJson_keys_clean _ ?_
    rw [hctx]
    exact personContext_keys_clean
  · cases h : store user.handle <;>
      simp [createActorFromUser, h, generateKeyPair]

/-! ## Handle extraction (`FollowersService.ts` vs `config.ts`)

Two distinct functions named `extractHandleFromUri` exist.  The
`FollowersService` one matches the anchored pattern `/^\/@([^/]+)$/` against
`url.pathname` of *any* parseable URI — it never looks at the hostname.  The
`config.ts` one first requires `url.hostname === getInstanceDomain()` and then
matches the unanchored-at-the-end pattern `/^\/@([^/]+)/`. -/

/-- `pathname.match(/^\/@([^/]+)$/)` — whole-path match. -/
def matchHandleAnchored (pathname : String) : Option String :=
  match pathname.toList with
  | '/' :: '@' :: rest =>
      if rest.isEmpty then none
      else if rest.all notSlash then some (String.mk rest)
      else none
  | _ => none

/-- `pathname.match(/^\/@([^/]+)/)` — the capture is the maximal run of
non-`/` characters after `/@`. -/
def matchHandleLoose (pathname : String) : Option String :=
  match pathname.toList with
  | '/' :: '@' :: rest =>
      let h := rest.takeWhile notSlash
      if h.isEmpty then none else some (String.mk h)
  | _ => none

namespace FollowersService

/-- `FollowersService.extractHandleFromUri(actorUri)` — no domain check. -/
def extractHandleFromUri (actorUri : String) : Option String :=
  match parseUrl actorUri with
  | some url => matchHandleAnchored url.pathname
  | none => none

end FollowersService

/-- `getInstanceDomain()`: hostname of the configured base URL, falling back
to `'tinyland.dev'` when it does not parse. -/
def getInstanceDomain (siteBaseUrl : String) : String :=
  match parseUrl siteBaseUrl with
  | some url => url.host
  | none => "tinyland.dev"

/-- `getSiteBaseUrl()`: the configured base URL with a single trailing `/`
stripped (`replace(/\/$/, '')`). -/
def stripTrailingSlash (s : String) : String :=
  match s.toList.getLast? with
  | some '/' => String.mk s.toList.dropLast
  | _ => s

namespace Config

/-- `config.ts`'s `extractHandleFromUri(uri)` — `null` unless the hostname
equals the instance domain. -/
def extractHandleFromUri (instanceDomain : String) (uri : String) :
    Option String :=
  match parseUrl uri with
  | some url =>
      if url.host ≠ instanceDomain then none
      else matchHandleLoose url.pathname
  | none => none

end Config

/-! ### C8: the two extractors behave differently on remote URIs -/

theorem takeWhile_append_all {α : Type} (p : α → Bool) (l₁ l₂ : List α)
    (h : ∀ a ∈ l₁, p a = true) :
    (l₁ ++ l₂).takeWhile p = l₁ ++ l₂.takeWhile p := by
  induction l₁ with
  | nil => simp
  | cons x xs ih =>
      have hx : p x = true := h x (by simp)
      have ihh := ih (fun a ha => h a (by simp [ha]))
      simp [List.takeWhile_cons, hx, ihh]

theorem dropWhile_append_all {α : Type} (p : α → Bool) (l₁ l₂ : List α)
    (h : ∀ a ∈ l₁, p a = true) :
    (l₁ ++ l₂).dropWhile p = l₂.dropWhile p := by
  induction l₁ with
  | nil => simp
  | cons x xs ih =>
      have hx : p x = true := h x (by simp)
      have ihh := ih (fun a ha => h a (by simp [ha]))
      simp [List.dropWhile_cons, hx, ihh]

theorem takeWhile_all {α : Type} (p : α → Bool) (l : List α)
    (h : ∀ a ∈ l, p a = true) : l.takeWhile p = l := by
  have h2 := takeWhile_append_all p l [] h
  simpa using h2

theorem dropWhile_all {α : Type} (p : α → Bool) (l : List α)
    (h : ∀ a ∈ l, p a = true) : l.dropWhile p = [] := by
  have h2 := dropWhile_append_all p l [] h
  simpa using h2

theorem string_mk_toList (s : String) : String.mk s.toList = s := by
  cases s
  rfl

theorem toList_ne_nil (s : String) (hs : s ≠ "") : s.toList ≠ [] := by
  intro hcon
  exact hs (by cases s; simp_all [String.toList])

/-- `parseUrl` on a well-formed local actor URI `https://{d}/@{h}`. -/
theorem parseUrl_local_actor (d h : String)
    (hd : d ≠ "") (hds : ∀ c ∈ d.toList, c ≠ '/')
    (_hh : h ≠ "") (hhs : ∀ c ∈ h.toList, c ≠ '/' ∧ c ≠ '?') :
    parseUrl ("https://" ++ d ++ "/@" ++ h) =
      some { scheme := "https", host := d,
             pathname := "/@" ++ h, search := "" } := by
  have hlist : ("https://" ++ d ++ "/@" ++ h).toList =
      'h' :: 't' :: 't' :: 'p' :: 's' :: ':' :: '/' :: '/' ::
        (d.toList ++ '/' :: '@' :: h.toList) := by
    show ((("https://" ++ d) ++ "/@") ++ h).data = _
    simp [String.data_append]
  have hdnil : d.toList ≠ [] := toList_ne_nil d hd
  have hds' : ∀ c ∈ d.toList, notSlash c = true := by
    intro c hc; simpa [notSlash] using hds c hc
  have hq : ∀ c ∈ '/' :: '@' :: h.toList, notQuery c = true := by
    intro c hc
    simp only [List.mem_cons] at hc
    rcases hc with rfl | rfl | hc
    · simp [notQuery]
    · simp [notQuery]
    · simpa [notQuery] using (hhs c hc).2
  have hmkd : String.mk d.toList = d := string_mk_toList d
  have hmkp : String.mk ('/' :: '@' :: h.toList) = "/@" ++ h := by
    have : ("/@" ++ h).toList = '/' :: '@' :: h.toList := by
      show ("/@" ++ h).data = _
      simp [String.data_append]
    rw [← this, string_mk_toList]
  unfold parseUrl
  rw [hlist]
  show parseHostPath "https" (d.toList ++ '/' :: '@' :: h.toList) = _
  unfold parseHostPath
  rw [takeWhile_append_all _ _ _ hds', dropWhile_append_all _ _ _ hds']
  have hslash : notSlash '/' = false := by simp [notSlash]
  rw [show ('/' :: '@' :: h.toList).takeWhile notSlash = [] by
    simp [List.takeWhile_cons, hslash]]
  rw [show ('/' :: '@' :: h.toList).dropWhile notSlash =
      '/' :: '@' :: h.toList by simp [List.dropWhile_cons, hslash]]
  rw [List.append_nil]
  rw [if_neg (by simpa [List.isEmpty_iff] using hdnil)]
  rw [takeWhile_all _ _ hq, dropWhile_all _ _ hq]
  simp only [List.isEmpty_cons, hmkd, hmkp]
  rfl

/-- `pathname = "/@" ++ h` matched by the two handle patterns. -/
theorem matchHandle_on_handle_path (h : String)
    (hh : h ≠ "") (hhs : ∀ c ∈ h.toList, c ≠ '/' ∧ c ≠ '?') :
    matchHandleAnchored ("/@" ++ h) = some h ∧
    matchHandleLoose ("/@" ++ h) = some h := by
  have hlist : ("/@" ++ h).toList = '/' :: '@' :: h.toList := by
    show (("/@") ++ h).data = _
    simp [String.data_append]
  have hnil : h.toList ≠ [] := toList_ne_nil h hh
  have hslashes : ∀ c ∈ h.toList, notSlash c = true := by
    intro c hc; simpa [notSlash] using (hhs c hc).1
  have hall : h.toList.all notSlash = true := by
    simp only [List.all_eq_true]
    exact hslashes
  have hmk : String.mk h.toList = h := string_mk_toList h
  constructor
  · unfold matchHandleAnchored
    rw [hlist]
    show (if h.toList.isEmpty then none
          else if h.toList.all notSlash then some (String.mk h.toList)
          else none) = some h
    rw [if_neg (by simpa [List.isEmpty_iff] using hnil), if_pos hall, hmk]
  · unfold matchHandleLoose
    rw [hlist]
    show (if (h.toList.takeWhile notSlash).isEmpty then none
          else some (String.mk (h.toList.takeWhile notSlash))) = some h
    rw [takeWhile_all _ _ hslashes]
    rw [if_neg (by simpa [List.isEmpty_iff] using hnil), hmk]

/-- **C8** (corrected).  Only `config.ts`'s `extractHandleFromUri` behaves as
claimed: it returns the handle for a local `https://{domain}/@{handle}` URI
and `null` for any URI whose hostname differs from the instance domain (or
does not parse).  The `FollowersService` `extractHandleFromUri` — the one the
inbound Follow path uses — ignores the hostname and extracts the handle from
*any* URI whose path is `/@{handle}`; on `https://mastodon.social/@bob` it
returns `'bob'`, not `null`. -/
theorem extractHandleFromUri_domain_behaviour :
    (∀ (instanceDomain uri : String) (url : Url),
      parseUrl uri = some url → url.host ≠ instanceDomain →
      Config.extractHandleFromUri instanceDomain uri = none) ∧
    (∀ (instanceDomain uri : String),
      parseUrl uri = none →
      Config.extractHandleFromUri instanceDomain uri = none) ∧
    (∀ (d h : String), d ≠ "" → (∀ c ∈ d.toList, c ≠ '/') →
      h ≠ "" → (∀ c ∈ h.toList, c ≠ '/' ∧ c ≠ '?') →
      Config.extractHandleFromUri d ("https://" ++ d ++ "/@" ++ h) = some h ∧
      FollowersService.extractHandleFromUri ("https://" ++ d ++ "/@" ++ h) =
        some h) ∧
    FollowersService.extractHandleFromUri "https://mastodon.social/@bob" =
      some "bob" := by
  refine ⟨?_, ?_, ?_, by decide⟩
  · intro instanceDomain uri url hparse hne
    simp [Config.extractHandleFromUri, hparse, hne]
  · intro instanceDomain uri hparse
    simp [Config.extractHandleFromUri, hparse]
  · intro d h hd hds hh hhs
    have hurl := parseUrl_local_actor d h hd hds hh hhs
    have hmatch := matchHandle_on_handle_path h hh hhs
    constructor
    · simp [Config.extractHandleFromUri, hurl, hmatch.2]
    · simp [FollowersService.extractHandleFromUri, hurl, hmatch.1]

/-- Witness for `extractHandleFromUri_domain_behaviour`: concrete cases —
remote `https://other.com/@bob` is rejected by the `config.ts` extractor
configured for `example.com`, while `https://example.com/@alice` yields
`alice` for both extractors. -/
theorem extractHandleFromUri_domain_behaviour_witness :
    Config.extractHandleFromUri "example.com" "https://other.com/@bob" =
      none ∧
    Config.extractHandleFromUri "example.com" "https://example.com/@alice" =
      some "alice" ∧
    FollowersService.extractHandleFromUri "https://example.com/@alice" =
      some "alice" := by
  refine ⟨?_, ?_, ?_⟩
  · exact extractHandleFromUri_domain_behaviour.1 "example.com"
      "https://other.com/@bob"
      { scheme := "https", host := "other.com", pathname := "/@bob",
        search := "" } (by decide) (by decide)
  · exact ((extractHandleFromUri_domain_behaviour.2.2.1 "example.com" "alice"
      (by decide) (by decide) (by decide) (by decide))).1
  · exact ((extractHandleFromUri_domain_behaviour.2.2.1 "example.com" "alice"
      (by decide) (by decide) (by decide) (by decide))).2

/-- **C8** counterexample: the claim "extractHandleFromUri returns null for
every URI whose hostname is not the instance domain — in particular null, not
'bob', for https://mastodon.social/@bob" is false for the `FollowersService`
extractor, which the Follow handler uses. -/
theorem extractHandleFromUri_remote_counterexample :
    FollowersService.extractHandleFromUri "https://mastodon.social/@bob" =
      some "bob" := by
  decide

/-! ## Inbound activity envelopes

Inbound activities arrive as untyped JSON; the handlers read `activity.actor`
(a URI string or an embedded actor, from which only `.id`, `.name` and
`.icon?.url` are accessed), `activity.object` (a URI string or an embedded
object) and `activity.published`. -/

structure EmbeddedActor where
  id : String
  name : Option String
  /-- `activity.actor.icon?.url` (resp. `.href`), as resolved by the
  handlers. -/
  iconUrl : Option String
deriving Repr, DecidableEq

inductive ActorRef
  | uri (s : String)
  | embedded (a : EmbeddedActor)
deriving Repr, DecidableEq

def actorUriOf : ActorRef → String
  | .uri s => s
  | .embedded a => a.id

def actorNameOf : ActorRef → Option String
  | .uri _ => none
  | .embedded a => a.name

def actorAvatarOf : ActorRef → Option String
  | .uri _ => none
  | .embedded a => a.iconUrl

structure ObjectTag where
  type : String
  href : String
  name : String
deriving Repr, DecidableEq

structure InObject where
  id : Option String
  type : Option String
  tag : Option (List ObjectTag)
  inReplyTo : Option String
  content : Option String
deriving Repr, DecidableEq

inductive ObjectRef
  | uri (s : String)
  | obj (o : InObject)
deriving Repr, DecidableEq

structure InActivity where
  id : String
  type : String
  actor : ActorRef
  object : Option ObjectRef
  published : Option String
deriving Repr, DecidableEq

/-! ## File stores as association lists

Each on-disk store (`followers/{handle}.json`, `likes/{activityId}.json`, …)
is a key → value map; files are read with `existsSync`/`readFileSync` and
written with `writeFileSync`. -/

def Store (α : Type) : Type := List (String × α)

instance {α : Type} [DecidableEq α] : DecidableEq (Store α) :=
  inferInstanceAs (DecidableEq (List (String × α)))

instance {α : Type} [Repr α] : Repr (Store α) :=
  inferInstanceAs (Repr (List (String × α)))

def storeGet {α : Type} (st : Store α) (k : String) : Option α :=
  (List.find? (fun kv => kv.fst = k) st).map Prod.snd

def storeSet {α : Type} : Store α → String → α → Store α
  | [], k, v => [(k, v)]
  | (k', v') :: rest, k, v =>
      if k' = k then (k, v) :: rest else (k', v') :: storeSet rest k v

theorem storeGet_storeSet_self {α : Type} (st : Store α) (k : String) (v : α) :
    storeGet (storeSet st k v) k = some v := by
  induction st with
  | nil => simp [storeSet, storeGet, List.find?]
  | cons kv rest ih =>
      obtain ⟨k', v'⟩ := kv
      by_cases hk : k' = k
      · simp [storeSet, hk, storeGet, List.find?]
      · simpa [storeSet, hk, storeGet, List.find?] using ih

/-! ## Follower graph (`FollowersService.ts`) -/

structure Follower where
  actorUri : String
  handle : String
  domain : String
  displayName : Option String
  avatarUrl : Option String
  followedAt : String
  status : String
deriving Repr, DecidableEq

/-- The list-level upsert inside `addFollower`: replace the entry with the
same `actorUri` (`findIndex` + assignment) or `push`. -/
def upsertFollower (followers : List Follower) (follower : Follower) :
    List Follower :=
  match followers.findIdx? (fun f => f.actorUri = follower.actorUri) with
  | some i => followers.set i follower
  | none => followers ++ [follower]

/-- `buildFollowerFromActivity(activity, status = 'pending')`. -/
def buildFollowerFromActivity (activity : InActivity) (status : String)
    (nowIso : String) : Option Follower :=
  if activity.type ≠ "Follow" then none
  else
    let actorUri := actorUriOf activity.actor
    match FollowersService.extractHandleFromUri actorUri with
    | none => none
    | some handle =>
      match parseUrl actorUri with
      | none => none
      | some url =>
          some { actorUri := actorUri
                 handle := handle
                 domain := url.host
                 displayName := actorNameOf activity.actor
                 avatarUrl := actorAvatarOf activity.actor
                 followedAt := jsOr activity.published nowIso
                 status := status }

/-! ## Per-actor social state (`NodeInfoService.ts` handlers)

The mutable stores the inbound handlers touch, gathered into one record:
`followers/{handle}.json`, `likes/{activityId}.json`,
`announces/{activityId}.json`, `notifications/{handle}.json`,
`remote-content/{handle}/{recordId}.json`, and the delivery queue that
`acceptFollow` enqueues Accept activities onto (the queue drain itself is the
delivery engine modelled above). -/

structure LikeRecord where
  id : String
  activityId : String
  actorUri : String
  actorHandle : String
  objectId : String
  likedAt : String
deriving Repr, DecidableEq

structure AnnounceRecord where
  id : String
  activityId : String
  actorUri : String
  actorHandle : String
  objectId : String
  announcedAt : String
deriving Repr, DecidableEq

structure Notification where
  id : String
  type : String
  actorUri : String
  actorHandle : String
  actorName : Option String
  actorAvatar : Option String
  targetUri : Option String
  activityId : String
  createdAt : String
  read : Bool
  content : Option String
deriving Repr, DecidableEq

structure ContentRecord where
  id : String
  activityId : String
  objectId : Option String
  objectType : String
  actorUri : String
  actorHandle : String
  object : InObject
  receivedAt : String
  published : String
deriving Repr, DecidableEq

structure AcceptActivity where
  id : String
  actor : String
  objectActivity : InActivity
  «to» : List String
  published : String
deriving Repr, DecidableEq

structure SocialState where
  followers : Store (List Follower)
  likes : Store LikeRecord
  announces : Store AnnounceRecord
  notifications : Store (List Notification)
  remoteContent : Store (Store ContentRecord)
  deliveryQueue : List (AcceptActivity × List String)
deriving Repr, DecidableEq

def emptySocialState : SocialState :=
  { followers := [], likes := [], announces := [], notifications := []
    remoteContent := [], deliveryQueue := [] }

/-- `addFollower(actorHandle, follower)`: read the follower file (missing ⇒
`[]`), upsert by `actorUri`, write back. -/
def addFollower (st : SocialState) (actorHandle : String)
    (follower : Follower) : SocialState :=
  let followers := (storeGet st.followers actorHandle).getD []
  { st with followers :=
      storeSet st.followers actorHandle (upsertFollower followers follower) }

/-- `acceptFollowRequest(actorHandle, followerUri)`: find the pending
follower with that URI; if present flip its status to accepted and upsert. -/
def acceptFollowRequest (st : SocialState) (actorHandle followerUri : String) :
    SocialState :=
  let pending := ((storeGet st.followers actorHandle).getD []).filter
    (fun f => f.status = "pending")
  match pending.find? (fun f => f.actorUri = followerUri) with
  | none => st
  | some follower => addFollower st actorHandle { follower with status := "accepted" }

/-- `createNotification(actorHandle, notification)`: prepend, cap at 100,
write back. -/
def createNotification (st : SocialState) (actorHandle : String)
    (n : Notification) : SocialState :=
  let notifications := (storeGet st.notifications actorHandle).getD []
  let notifications := n :: notifications
  let notifications :=
    if notifications.length > 100 then notifications.take 100
    else notifications
  { st with notifications := storeSet st.notifications actorHandle notifications }

def getActorUri (baseUrl handle : String) : String := baseUrl ++ "/@" ++ handle

/-- `acceptFollow(localActorHandle, followActivity)`: flip the follower to
accepted, build an `Accept` wrapping the received Follow, and queue it for
delivery to the follower. -/
def acceptFollow (st : SocialState) (localActorHandle : String)
    (followActivity : InActivity) (baseUrl acceptUuid nowIso : String) :
    SocialState :=
  let followerUri := actorUriOf followActivity.actor
  let st := acceptFollowRequest st localActorHandle followerUri
  let acceptActivity : AcceptActivity :=
    { id := getActorUri baseUrl localActorHandle ++ "/activities/" ++ acceptUuid
      actor := getActorUri baseUrl localActorHandle
      objectActivity := followActivity
      «to» := [followerUri]
      published := nowIso }
  { st with deliveryQueue :=
      st.deliveryQueue ++ [(acceptActivity, [followerUri])] }

/-- `handleFollowActivity(activity, localActorHandle)`: validate the envelope
(`object` must be a string URI), build the pending follower (throwing when the
actor URI is not of the `/@handle` shape), upsert it, create a `follow`
notification, and — when `autoApproveFollows` — accept and enqueue the Accept.
A thrown error leaves every store untouched. -/
def handleFollowActivity (st : SocialState) (activity : InActivity)
    (localActorHandle : String) (autoApproveFollows : Bool) (baseUrl : String)
    (noteUuid acceptUuid nowIso : String) : Except String SocialState :=
  match activity.object with
  | some (.uri _) =>
    match buildFollowerFromActivity activity "pending" nowIso with
    | none => .error "Invalid Follow activity: could not build follower"
    | some follower =>
      let st := addFollower st localActorHandle follower
      let st := createNotification st localActorHandle
        { id := noteUuid
          type := "follow"
          actorUri := follower.actorUri
          actorHandle := follower.handle
          actorName := follower.displayName
          actorAvatar := follower.avatarUrl
          targetUri := some (getActorUri baseUrl localActorHandle)
          activityId := activity.id
          createdAt := jsOr activity.published nowIso
          read := false
          content := none }
      if autoApproveFollows then
        .ok (acceptFollow st localActorHandle activity baseUrl acceptUuid nowIso)
      else
        .ok st
  | _ => .error "Invalid Follow activity: missing object"

/-- `handleLikeActivity(activity, localActorHandle)`: `object` must be a
string URI; dedupe on the `likes/{activity.id}.json` file; persist the record
and create a `like` notification. -/
def handleLikeActivity (st : SocialState) (activity : InActivity)
    (localActorHandle : String) (recUuid noteUuid nowIso : String) :
    Except String SocialState :=
  match activity.object with
  | some (.uri objectUri) =>
    if (storeGet st.likes activity.id).isSome then .ok st
    else
      let actorUri := actorUriOf activity.actor
      let actorHandle :=
        jsOr (FollowersService.extractHandleFromUri actorUri) "unknown"
      let likeRecord : LikeRecord :=
        { id := recUuid
          activityId := activity.id
          actorUri := actorUri
          actorHandle := actorHandle
          objectId := objectUri
          likedAt := jsOr activity.published nowIso }
      let st := { st with likes := storeSet st.likes activity.id likeRecord }
      .ok (createNotification st localActorHandle
        { id := noteUuid
          type := "like"
          actorUri := actorUri
          actorHandle := actorHandle
          actorName := actorNameOf activity.actor
          actorAvatar := actorAvatarOf activity.actor
          targetUri := some objectUri
          activityId := activity.id
          createdAt := jsOr activity.published nowIso
          read := false
          content := none })
  | _ => .error "Invalid Like activity: missing object"

/-- `handleAnnounceActivity(activity, localActorHandle)` — as for Like but on
the announce store. -/
def handleAnnounceActivity (st : SocialState) (activity : InActivity)
    (localActorHandle : String) (recUuid noteUuid nowIso : String) :
    Except String SocialState :=
  match activity.object with
  | some (.uri objectUri) =>
    if (storeGet st.announces activity.id).isSome then .ok st
    else
      let actorUri := actorUriOf activity.actor
      let actorHandle :=
        jsOr (FollowersService.extractHandleFromUri actorUri) "unknown"
      let announceRecord : AnnounceRecord :=
        { id := recUuid
          activityId := activity.id
          actorUri := actorUri
          actorHandle := actorHandle
          objectId := objectUri
          announcedAt := jsOr activity.published nowIso }
      let st := { st with
        announces := storeSet st.announces activity.id announceRecord }
      .ok (createNotification st localActorHandle
        { id := noteUuid
          type := "announce"
          actorUri := actorUri
          actorHandle := actorHandle
          actorName := actorNameOf activity.actor
          actorAvatar := actorAvatarOf activity.actor
          targetUri := some objectUri
          activityId := activity.id
          createdAt := jsOr activity.published nowIso
          read := false
          content := none })
  | _ => .error "Invalid Announce activity: missing object"

/-- `handleCreateActivity(activity, localActorHandle)`: store a remote-content
record under a fresh `crypto.randomUUID()` file name (no dedupe by
`activity.id`), and create a `mention`/`reply` notification when the object
carries mentions or `inReplyTo`. -/
def handleCreateActivity (st : SocialState) (activity : InActivity)
    (localActorHandle : String) (recUuid noteUuid nowIso : String) :
    Except String SocialState :=
  match activity.object with
  | none => .error "Invalid Create activity: missing object"
  | some objRef =>
    let actorUri := actorUriOf activity.actor
    let actorHandle :=
      jsOr (FollowersService.extractHandleFromUri actorUri) "unknown"
    let object : InObject :=
      match objRef with
      | .uri s => { id := some s, type := some "Unknown", tag := none,
                    inReplyTo := none, content := none }
      | .obj o => o
    let objectId := object.id
    let objectType := jsOr object.type "Unknown"
    let contentRecord : ContentRecord :=
      { id := recUuid
        activityId := activity.id
        objectId := objectId
        objectType := objectType
        actorUri := actorUri
        actorHandle := actorHandle
        object := object
        receivedAt := nowIso
        published := jsOr activity.published nowIso }
    let perHandle := (storeGet st.remoteContent localActorHandle).getD []
    let st := { st with
      remoteContent := storeSet st.remoteContent localActorHandle
        (storeSet perHandle recUuid contentRecord) }
    let mentions := (object.tag.getD []).filter (fun t => t.type = "Mention")
    if mentions.length > 0 ∨ jsTruthy object.inReplyTo then
      .ok (createNotification st localActorHandle
        { id := noteUuid
          type := if jsTruthy object.inReplyTo then "reply" else "mention"
          actorUri := actorUri
          actorHandle := actorHandle
          actorName := actorNameOf activity.actor
          actorAvatar := actorAvatarOf activity.actor
          targetUri := objectId
          activityId := activity.id
          createdAt := jsOr activity.published nowIso
          read := false
          content := object.content.map (fun c => c.take 200) })
    else
      .ok st

/-! ### Supporting lemmas for the idempotence analysis -/

theorem storeSet_storeSet {α : Type} (st : Store α) (k : String) (v w : α) :
    storeSet (storeSet st k v) k w = storeSet st k w := by
  induction st with
  | nil => simp [storeSet]
  | cons kv rest ih =>
      obtain ⟨k', v'⟩ := kv
      by_cases hk : k' = k
      · simp [storeSet, hk]
      · simp [storeSet, hk, ih]

theorem upsertFollower_cons_pos (x : Follower) (xs : List Follower)
    (f : Follower) (h : x.actorUri = f.actorUri) :
    upsertFollower (x :: xs) f = f :: xs := by
  simp [upsertFollower, List.findIdx?_cons, h, List.set]

theorem upsertFollower_cons_neg (x : Follower) (xs : List Follower)
    (f : Follower) (h : ¬ x.actorUri = f.actorUri) :
    upsertFollower (x :: xs) f = x :: upsertFollower xs f := by
  simp only [upsertFollower, List.findIdx?_cons, decide_eq_false h,
    Bool.false_eq_true, if_false, List.findIdx?_succ]
  cases hfi : List.findIdx? (fun g => g.actorUri = f.actorUri) xs with
  | none => simp [hfi]
  | some i => simp [hfi, List.set_cons_succ]

theorem upsertFollower_idem (l : List Follower) (f : Follower) :
    upsertFollower (upsertFollower l f) f = upsertFollower l f := by
  induction l with
  | nil =>
      show upsertFollower [f] f = [f]
      exact upsertFollower_cons_pos f [] f rfl
  | cons x xs ih =>
      by_cases hx : x.actorUri = f.actorUri
      · rw [upsertFollower_cons_pos x xs f hx,
          upsertFollower_cons_pos f xs f rfl]
      · rw [upsertFollower_cons_neg x xs f hx,
          upsertFollower_cons_neg x (upsertFollower xs f) f hx, ih]

/-- When `activity.published` is a truthy string, the follower built from the
activity does not depend on the wall-clock argument. -/
theorem buildFollower_nowIso_irrelevant (activity : InActivity)
    (status t t' : String) (hpub : jsTruthy activity.published = true) :
    buildFollowerFromActivity activity status t =
      buildFollowerFromActivity activity status t' := by
  unfold buildFollowerFromActivity
  cases hp : activity.published with
  | none => simp [jsTruthy, hp] at hpub
  | some p =>
      have hne : p ≠ "" := by simpa [jsTruthy, hp] using hpub
      simp [jsOr, hp, hne]

theorem handleLike_idem (st st' : SocialState) (activity : InActivity)
    (h r1 n1 t1 r2 n2 t2 : String)
    (h1 : handleLikeActivity st activity h r1 n1 t1 = .ok st') :
    handleLikeActivity st' activity h r2 n2 t2 = .ok st' := by
  cases hobj : activity.object with
  | none => simp [handleLikeActivity, hobj] at h1
  | some objRef =>
    cases objRef with
    | obj o => simp [handleLikeActivity, hobj] at h1
    | uri u =>
      cases hdup : (storeGet st.likes activity.id).isSome with
      | true =>
          have hst : st = st' := by
            simpa [handleLikeActivity, hobj, hdup] using h1
          subst hst
          simp [handleLikeActivity, hobj, hdup]
      | false =>
          simp only [handleLikeActivity, hobj, hdup, Bool.false_eq_true,
            if_false] at h1
          have hst' := (Except.ok.injEq _ _).mp h1
          have hlikes : (storeGet st'.likes activity.id).isSome = true := by
            rw [← hst']
            simp [createNotification, storeGet_storeSet_self]
          simp [handleLikeActivity, hobj, hlikes]

theorem handleAnnounce_idem (st st' : SocialState) (activity : InActivity)
    (h r1 n1 t1 r2 n2 t2 : String)
    (h1 : handleAnnounceActivity st activity h r1 n1 t1 = .ok st') :
    handleAnnounceActivity st' activity h r2 n2 t2 = .ok st' := by
  cases hobj : activity.object with
  | none => simp [handleAnnounceActivity, hobj] at h1
  | some objRef =>
    cases objRef with
    | obj o => simp [handleAnnounceActivity, hobj] at h1
    | uri u =>
      cases hdup : (storeGet st.announces activity.id).isSome with
      | true =>
          have hst : st = st' := by
            simpa [handleAnnounceActivity, hobj, hdup] using h1
          subst hst
          simp [handleAnnounceActivity, hobj, hdup]
      | false =>
          simp only [handleAnnounceActivity, hobj, hdup, Bool.false_eq_true,
            if_false] at h1
          have hst' := (Except.ok.injEq _ _).mp h1
          have hann : (storeGet st'.announces activity.id).isSome = true := by
            rw [← hst']
            simp [createNotification, storeGet_storeSet_self]
          simp [handleAnnounceActivity, hobj, hann]

theorem handleFollow_preserves_follower_list (st st₁ st₂ : SocialState)
    (activity : InActivity) (h baseUrl n1 a1 t1 n2 a2 t2 : String)
    (hpub : jsTruthy activity.published = true)
    (h1 : handleFollowActivity st activity h false baseUrl n1 a1 t1 = .ok st₁)
    (h2 : handleFollowActivity st₁ activity h false baseUrl n2 a2 t2 = .ok st₂) :
    st₂.followers = st₁.followers := by
  cases hobj : activity.object with
  | none => simp [handleFollowActivity, hobj] at h1
  | some objRef =>
    cases objRef with
    | obj o => simp [handleFollowActivity, hobj] at h1
    | uri u =>
      cases hb : buildFollowerFromActivity activity "pending" t1 with
      | none => simp [handleFollowActivity, hobj, hb] at h1
      | some f =>
          have hb2 : buildFollowerFromActivity activity "pending" t2 = some f := by
            rw [buildFollower_nowIso_irrelevant activity "pending" t2 t1 hpub, hb]
          simp only [handleFollowActivity, hobj, hb, hb2,
            Bool.false_eq_true, if_false, Except.ok.injEq] at h1 h2
          subst h1
          subst h2
          simp [createNotification, addFollower, storeGet_storeSet_self,
            storeSet_storeSet, upsertFollower_idem]

/-- Every *successful* Create receipt — first or repeated — files a
remote-content record under the fresh `crypto.randomUUID()` file name passed
as `recUuid`, keyed by that UUID and carrying the receipt's `activity.id`:
there is no lookup by `activity.id` that could suppress the write. -/
theorem handleCreate_stores_record (st st' : SocialState)
    (activity : InActivity) (h recUuid noteUuid nowIso : String)
    (h1 : handleCreateActivity st activity h recUuid noteUuid nowIso = .ok st') :
    (storeGet ((storeGet st'.remoteContent h).getD []) recUuid).map
      (fun rec => rec.activityId) = some activity.id := by
  cases hobj : activity.object with
  | none => simp [handleCreateActivity, hobj] at h1
  | some objRef =>
      simp only [handleCreateActivity, hobj] at h1
      split at h1 <;>
      · simp only [Except.ok.injEq] at h1
        subst h1
        simp [createNotification, storeGet_storeSet_self]

/-- **C4** (corrected — amended part).  Inbound Like and Announce are
idempotent by `activity.id`: once a receipt has succeeded, processing the same
activity again returns the state unchanged (for any fresh UUIDs/timestamps of
the second receipt).  Inbound Follow is *not* a full no-op on second receipt
(see the counterexample), but when the activity carries a truthy `published`
timestamp its follower-list effect is: the upsert by `actorUri` leaves the
follower store unchanged (without `published`, the upsert rewrites the row's
`followedAt` to the new receipt time).  Inbound Create has no dedupe at all:
every successful receipt, repeated or not, stores a record under its fresh
UUID. -/
theorem inbound_idempotence_by_activity_id :
    (∀ (st st' : SocialState) (activity : InActivity)
       (h r1 n1 t1 r2 n2 t2 : String),
      handleLikeActivity st activity h r1 n1 t1 = .ok st' →
      handleLikeActivity st' activity h r2 n2 t2 = .ok st') ∧
    (∀ (st st' : SocialState) (activity : InActivity)
       (h r1 n1 t1 r2 n2 t2 : String),
      handleAnnounceActivity st activity h r1 n1 t1 = .ok st' →
      handleAnnounceActivity st' activity h r2 n2 t2 = .ok st') ∧
    (∀ (st st₁ st₂ : SocialState) (activity : InActivity)
       (h baseUrl n1 a1 t1 n2 a2 t2 : String),
      jsTruthy activity.published = true →
      handleFollowActivity st activity h false baseUrl n1 a1 t1 = .ok st₁ →
      handleFollowActivity st₁ activity h false baseUrl n2 a2 t2 = .ok st₂ →
      st₂.followers = st₁.followers) ∧
    (∀ (st st' : SocialState) (activity : InActivity)
       (h recUuid noteUuid nowIso : String),
      handleCreateActivity st activity h recUuid noteUuid nowIso = .ok st' →
      (storeGet ((storeGet st'.remoteContent h).getD []) recUuid).map
        (fun rec => rec.activityId) = some activity.id) :=
  ⟨fun st st' activity h r1 n1 t1 r2 n2 t2 =>
      handleLike_idem st st' activity h r1 n1 t1 r2 n2 t2,
   fun st st' activity h r1 n1 t1 r2 n2 t2 =>
      handleAnnounce_idem st st' activity h r1 n1 t1 r2 n2 t2,
   fun st st₁ st₂ activity h baseUrl n1 a1 t1 n2 a2 t2 =>
      handleFollow_preserves_follower_list st st₁ st₂ activity h baseUrl
        n1 a1 t1 n2 a2 t2,
   fun st st' activity h recUuid noteUuid nowIso =>
      handleCreate_stores_record st st' activity h recUuid noteUuid nowIso⟩

/-- A remote Follow from a Mastodon-style actor URI. -/
def followActRemote : InActivity :=
  { id := "https://mastodon.social/activities/follow-1"
    type := "Follow"
    actor := .uri "https://mastodon.social/@bob"
    object := some (.uri "https://example.com/@alice")
    published := some "2024-01-01T00:00:00Z" }

def followOnceState : SocialState :=
  ((handleFollowActivity emptySocialState followActRemote "alice" false
    "https://example.com" "n1" "a1" "t1").toOption).getD emptySocialState

def followTwiceState : SocialState :=
  ((handleFollowActivity followOnceState followActRemote "alice" false
    "https://example.com" "n2" "a2" "t2").toOption).getD followOnceState

/-- A remote Create carrying an embedded Note. -/
def createActRemote : InActivity :=
  { id := "https://mastodon.social/activities/create-1"
    type := "Create"
    actor := .uri "https://mastodon.social/@bob"
    object := some (.obj
      { id := some "https://mastodon.social/@bob/notes/1"
        type := some "Note"
        tag := none
        inReplyTo := none
        content := some "hello" })
    published := some "2024-01-01T00:00:00Z" }

def createOnceState : SocialState :=
  ((handleCreateActivity emptySocialState createActRemote "alice"
    "r1" "n1" "t1").toOption).getD emptySocialState

def createTwiceState : SocialState :=
  ((handleCreateActivity createOnceState createActRemote "alice"
    "r2" "n2" "t2").toOption).getD createOnceState

/-- **C4** counterexample.  Processing the same activity (identical
`activity.id`) twice is *not* a no-op for Follow or Create: both Follow
receipts succeed but the second appends a second `follow` notification, and
both Create receipts succeed but the second stores a second remote-content
record (under a second fresh UUID), so in each case the stored state after
two receipts differs from the state after one. -/
theorem handleFollow_second_receipt_not_noop :
    ((handleFollowActivity emptySocialState followActRemote "alice" false
      "https://example.com" "n1" "a1" "t1").toOption = some followOnceState ∧
    (handleFollowActivity followOnceState followActRemote "alice" false
      "https://example.com" "n2" "a2" "t2").toOption = some followTwiceState ∧
    followTwiceState ≠ followOnceState ∧
    ((storeGet followTwiceState.notifications "alice").getD []).length = 2 ∧
    ((storeGet followOnceState.notifications "alice").getD []).length = 1) ∧
    ((handleCreateActivity emptySocialState createActRemote "alice"
      "r1" "n1" "t1").toOption = some createOnceState ∧
    (handleCreateActivity createOnceState createActRemote "alice"
      "r2" "n2" "t2").toOption = some createTwiceState ∧
    createTwiceState ≠ createOnceState ∧
    ((storeGet createTwiceState.remoteContent "alice").getD []).length = 2 ∧
    ((storeGet createOnceState.remoteContent "alice").getD []).length = 1) := by
  refine ⟨⟨by decide, by decide, by decide, by decide, by decide⟩,
          ⟨by decide, by decide, by decide, by decide, by decide⟩⟩

def likeActRemote : InActivity :=
  { id := "https://mastodon.social/activities/like-1"
    type := "Like"
    actor := .uri "https://mastodon.social/@bob"
    object := some (.uri "https://example.com/@alice/notes/n1")
    published := some "2024-01-01T00:00:00Z" }

def likeOnceState : SocialState :=
  ((handleLikeActivity emptySocialState likeActRemote "alice"
    "r1" "n1" "t1").toOption).getD emptySocialState

def announceActRemote : InActivity :=
  { id := "https://mastodon.social/activities/announce-1"
    type := "Announce"
    actor := .uri "https://mastodon.social/@bob"
    object := some (.uri "https://example.com/@alice/notes/n1")
    published := some "2024-01-01T00:00:00Z" }

def announceOnceState : SocialState :=
  ((handleAnnounceActivity emptySocialState announceActRemote "alice"
    "r1" "n1" "t1").toOption).getD emptySocialState

/-- Witness for `inbound_idempotence_by_activity_id`: a concrete Like,
Announce, Follow and Create, each processed twice with fresh
UUIDs/timestamps — the repeated Create's second record is found under its
second UUID. -/
theorem inbound_idempotence_by_activity_id_witness :
    handleLikeActivity likeOnceState likeActRemote "alice" "r2" "n2" "t2" =
      .ok likeOnceState ∧
    handleAnnounceActivity announceOnceState announceActRemote "alice"
      "r2" "n2" "t2" = .ok announceOnceState ∧
    followTwiceState.followers = followOnceState.followers ∧
    (storeGet ((storeGet createTwiceState.remoteContent "alice").getD [])
      "r2").map (fun rec => rec.activityId) = some createActRemote.id := by
  refine ⟨?_, ?_, ?_, ?_⟩
  · exact inbound_idempotence_by_activity_id.1 emptySocialState likeOnceState
      likeActRemote "alice" "r1" "n1" "t1" "r2" "n2" "t2" rfl
  · exact inbound_idempotence_by_activity_id.2.1 emptySocialState
      announceOnceState announceActRemote "alice" "r1" "n1" "t1" "r2" "n2" "t2"
      rfl
  · exact inbound_idempotence_by_activity_id.2.2.1 emptySocialState
      followOnceState followTwiceState followActRemote "alice"
      "https://example.com" "n1" "a1" "t1" "n2" "a2" "t2" (by decide) rfl rfl
  · exact inbound_idempotence_by_activity_id.2.2.2 createOnceState
      createTwiceState createActRemote "alice" "r2" "n2" "t2" rfl

/-! ### C10: Follows from non-`/@handle` actor URIs -/

/-- **C10.**  When an inbound Follow's actor URI does not have a `/@{handle}`
path (`FollowersService.extractHandleFromUri` returns `null` — e.g. Lemmy's
`/u/bob` or PeerTube's `/accounts/bob` shapes), `buildFollowerFromActivity`
returns `null` and `handleFollowActivity` throws before touching any store:
the error is raised before `addFollower` and `createNotification` run, so no
follower row and no notification is created and such an actor can never
follow a local actor. -/
theorem handleFollow_rejects_nonhandle_actor (st : SocialState)
    (activity : InActivity) (localActorHandle : String)
    (autoApproveFollows : Bool)
    (baseUrl noteUuid acceptUuid nowIso objUri : String)
    (htype : activity.type = "Follow")
    (hobj : activity.object = some (.uri objUri))
    (hextract : FollowersService.extractHandleFromUri
      (actorUriOf activity.actor) = none) :
    handleFollowActivity st activity localActorHandle autoApproveFollows
      baseUrl noteUuid acceptUuid nowIso =
      .error "Invalid Follow activity: could not build follower" ∧
    buildFollowerFromActivity activity "pending" nowIso = none := by
  have hbuild : buildFollowerFromActivity activity "pending" nowIso = none := by
    simp [buildFollowerFromActivity, htype, hextract]
  exact ⟨by simp [handleFollowActivity, hobj, hbuild], hbuild⟩

/-- A Lemmy-style Follow (`/u/bob` actor path). -/
def lemmyFollowAct : InActivity :=
  { id := "https://lemmy.ml/activities/follow/1"
    type := "Follow"
    actor := .uri "https://lemmy.ml/u/bob"
    object := some (.uri "https://example.com/@alice")
    published := none }

/-- Witness for `handleFollow_rejects_nonhandle_actor`: the Lemmy-style
Follow is rejected even with `autoApproveFollows` on. -/
theorem handleFollow_rejects_nonhandle_actor_witness :
    handleFollowActivity emptySocialState lemmyFollowAct "alice" true
      "https://example.com" "n" "a" "t" =
      .error "Invalid Follow activity: could not build follower" :=
  (handleFollow_rejects_nonhandle_actor emptySocialState lemmyFollowAct
    "alice" true "https://example.com" "n" "a" "t"
    "https://example.com/@alice" rfl rfl (by decide)).1

/-! ## WebFinger discovery (`WebFingerService.ts`)

`getActorByHandle`'s store and the `resolveUser` config callback are
parameters; the `await` on `resolveUser` is immaterial here since only its
result is consulted. -/

/-- The result of `parseResource` (source fields `type`/`handle`/`domain`;
`type` being a Lean keyword in this position, it is named `rtype`).  Both
constructors always set all three fields. -/
structure ParsedResource where
  rtype : String
  handle : String
  domain : String
deriving Repr, DecidableEq

/-- `parseResource(resource)`: the `acct:` form must match
`/^acct:([^@]+)@([^@]+)$/` (exactly one `@` separating non-empty halves); the
URL form must be `http(s)://` with pathname matching `/^\/@([^/]+)$/`.
An `acct:` string failing its regex falls through to the URL branch, which
then also fails. -/
def parseResource (resource : String) : Option ParsedResource :=
  let cs := resource.toList
  let acct : Option ParsedResource :=
    match expectLit "acct:".toList cs with
    | some rest =>
        let before := rest.takeWhile (fun c => c ≠ '@')
        match rest.dropWhile (fun c => c ≠ '@') with
        | '@' :: after =>
            if before.isEmpty then none
            else if after.isEmpty then none
            else if after.all (fun c => c ≠ '@') then
              some { rtype := "acct", handle := String.mk before
                     domain := String.mk after }
            else none
        | _ => none
    | none => none
  match acct with
  | some r => some r
  | none =>
    match parseUrlChars cs with
    | some url =>
        match matchHandleAnchored url.pathname with
        | some handle =>
            some { rtype := "url", handle := handle, domain := url.host }
        | none => none
    | none => none

structure ResolvedUser where
  handle : String
  displayName : Option String
  bio : Option String
  avatarUrl : Option String
deriving Repr, DecidableEq

structure WebFingerLink where
  rel : String
  type : Option String
  href : Option String
  template : Option String
deriving Repr, DecidableEq

structure WebFingerResource where
  subject : String
  aliases : List String
  links : List WebFingerLink
deriving Repr, DecidableEq

/-- `getWebFingerForResource(resource)`: `null` on parse failure, domain
mismatch, an empty handle, or a user found neither in the actor store nor via
`resolveUser`; otherwise the descriptor with `subject = resource`, aliases
`[actorUri, profileUrl]` and the self / profile-page / subscribe links. -/
def getWebFingerForResource (siteBaseUrl : String)
    (store : String → Option StoredActor)
    (resolveUser : Option (String → Option ResolvedUser))
    (resource : String) : Option WebFingerResource :=
  let parsed := parseResource resource
  let instanceDomain := getInstanceDomain siteBaseUrl
  let baseUrl := stripTrailingSlash siteBaseUrl
  match parsed with
  | none => none
  | some parsed =>
    if parsed.domain ≠ instanceDomain then none
    else if parsed.handle = "" then none
    else
      let actor := getActorByHandle baseUrl store parsed.handle
      let userExists : Bool :=
        match actor with
        | some _ => true
        | none =>
          match resolveUser with
          | some resolve => (resolve parsed.handle).isSome
          | none => false
      if userExists then
        let actorId := baseUrl ++ "/@" ++ parsed.handle
        let profileUrl := baseUrl ++ "/@" ++ parsed.handle
        some { subject := resource
               aliases := [actorId, profileUrl]
               links := [
                 { rel := "self", type := some "application/activity+json"
                   href := some actorId, template := none },
                 { rel := "http://webfinger.net/rel/profile-page"
                   type := some "text/html", href := some profileUrl
                   template := none },
                 { rel := "http://ostatus.org/schema/1.0/subscribe"
                   type := none, href := none
                   template := some (baseUrl ++
                     "/authorize_interaction?uri=\x7buri\x7d") }] }
      else none

/-- **C9.**  `getWebFingerForResource` returns `null` whenever the parsed
resource's domain differs from the instance domain, and whenever the handle's
user exists neither in the actor store nor via the `resolveUser` callback;
for an existing local handle it returns a descriptor whose subject is the
resource string, whose aliases contain `{base}/@{handle}`, and whose links
contain a `self` link of type `application/activity+json` with href
`{base}/@{handle}`. -/
theorem getWebFingerForResource_spec :
    (∀ (siteBaseUrl : String) (store : String → Option StoredActor)
       (resolveUser : Option (String → Option ResolvedUser))
       (resource : String) (pr : ParsedResource),
      parseResource resource = some pr →
      pr.domain ≠ getInstanceDomain siteBaseUrl →
      getWebFingerForResource siteBaseUrl store resolveUser resource = none) ∧
    (∀ (siteBaseUrl : String) (store : String → Option StoredActor)
       (resolveUser : Option (String → Option ResolvedUser))
       (resource : String) (pr : ParsedResource),
      parseResource resource = some pr →
      store pr.handle = none →
      (match resolveUser with
       | some resolve => resolve pr.handle = none
       | none => True) →
      getWebFingerForResource siteBaseUrl store resolveUser resource = none) ∧
    (∀ (siteBaseUrl : String) (store : String → Option StoredActor)
       (resolveUser : Option (String → Option ResolvedUser))
       (resource : String) (pr : ParsedResource),
      parseResource resource = some pr →
      pr.domain = getInstanceDomain siteBaseUrl →
      pr.handle ≠ "" →
      (store pr.handle).isSome = true →
      ∃ wf, getWebFingerForResource siteBaseUrl store resolveUser resource =
          some wf ∧
        wf.subject = resource ∧
        (stripTrailingSlash siteBaseUrl ++ "/@" ++ pr.handle) ∈ wf.aliases ∧
        ({ rel := "self", type := some "application/activity+json"
           href := some (stripTrailingSlash siteBaseUrl ++ "/@" ++ pr.handle)
           template := none } : WebFingerLink) ∈ wf.links) := by
  refine ⟨?_, ?_, ?_⟩
  · intro siteBaseUrl store resolveUser resource pr hparse hdom
    simp [getWebFingerForResource, hparse, hdom]
  · intro siteBaseUrl store resolveUser resource pr hparse hstore hresolve
    simp only [getWebFingerForResource, hparse]
    by_cases hdom : pr.domain = getInstanceDomain siteBaseUrl
    · by_cases hhandle : pr.handle = ""
      · simp [hdom, hhandle]
      · have hnoactor : getActorByHandle (stripTrailingSlash siteBaseUrl)
            store pr.handle = none := by
          simp [getActorByHandle, hstore]
        cases hr : resolveUser with
        | none => simp [hdom, hhandle, hnoactor, hr]
        | some resolve =>
            have : resolve pr.handle = none := by simpa [hr] using hresolve
            simp [hdom, hhandle, hnoactor, hr, this]
    · simp [hdom]
  · intro siteBaseUrl store resolveUser resource pr hparse hdom hhandle hstore
    obtain ⟨sa, hsa⟩ := Option.isSome_iff_exists.mp hstore
    have hactor : getActorByHandle (stripTrailingSlash siteBaseUrl)
        store pr.handle =
        some (actorFromStored (stripTrailingSlash siteBaseUrl) sa) := by
      simp [getActorByHandle, hsa]
    refine ⟨{ subject := resource
              aliases := [stripTrailingSlash siteBaseUrl ++ "/@" ++ pr.handle,
                stripTrailingSlash siteBaseUrl ++ "/@" ++ pr.handle]
              links := [
                { rel := "self", type := some "application/activity+json"
                  href := some (stripTrailingSlash siteBaseUrl ++ "/@"
                    ++ pr.handle)
                  template := none },
                { rel := "http://webfinger.net/rel/profile-page"
                  type := some "text/html"
                  href := some (stripTrailingSlash siteBaseUrl ++ "/@"
                    ++ pr.handle)
                  template := none },
                { rel := "http://ostatus.org/schema/1.0/subscribe"
                  type := none, href := none
                  template := some (stripTrailingSlash siteBaseUrl ++
                    "/authorize_interaction?uri=\x7buri\x7d") }] },
      ?_, rfl, by simp, by simp⟩
    simp [getWebFingerForResource, hparse, hdom, hhandle, hactor]

/-- A stored record for `alice` on `example.com` (as `createActorFromUser`
would store it). -/
def aliceStored : StoredActor :=
  ((createActorFromUser "https://example.com" (fun _ => none)
    { handle := "alice", displayName := none
      createdAt := "2024-01-01T00:00:00Z"
      updatedAt := "2024-01-01T00:00:00Z" }
    none "123e4567-e89b-12d3-a456-426614174000" "PUBPEM" "PRIVPEM").2)

def aliceStore (handle : String) : Option StoredActor :=
  if handle = "alice" then some aliceStored else none

/-- Witness for `getWebFingerForResource_spec`, on `example.com` with `alice`
stored: `acct:alice@other.com` (wrong domain) and `acct:carol@example.com`
(unknown user, no `resolveUser`) yield `null`, while `acct:alice@example.com`
yields a descriptor carrying the subject, alias and self link. -/
theorem getWebFingerForResource_spec_witness :
    getWebFingerForResource "https://example.com" aliceStore none
      "acct:alice@other.com" = none ∧
    getWebFingerForResource "https://example.com" aliceStore none
      "acct:carol@example.com" = none ∧
    ∃ wf, getWebFingerForResource "https://example.com" aliceStore none
        "acct:alice@example.com" = some wf ∧
      wf.subject = "acct:alice@example.com" ∧
      "https://example.com/@alice" ∈ wf.aliases ∧
      ({ rel := "self", type := some "application/activity+json"
         href := some "https://example.com/@alice"
         template := none } : WebFingerLink) ∈ wf.links := by
  refine ⟨?_, ?_, ?_⟩
  · exact getWebFingerForResource_spec.1 "https://example.com" aliceStore none
      "acct:alice@other.com"
      { rtype := "acct", handle := "alice", domain := "other.com" }
      (by decide) (by decide)
  · exact getWebFingerForResource_spec.2.1 "https://example.com" aliceStore
      none "acct:carol@example.com"
      { rtype := "acct", handle := "carol", domain := "example.com" }
      (by decide) (by decide) trivial
  · have h := getWebFingerForResource_spec.2.2 "https://example.com"
      aliceStore none "acct:alice@example.com"
      { rtype := "acct", handle := "alice", domain := "example.com" }
      (by decide) (by decide) (by decide) (by decide)
    simpa using h

end Tinyland
